import Mathlib

/-!
Shallow embedding of the ragmetrics instrumentation engine
(`ragmetrics/api.py`, `ragmetrics/client_integrations/wrapper_utils.py`,
`ragmetrics/client_integrations/openai_chat_wrapper.py`).

Python values are modelled by the inductive `PyVal`; dictionaries are
insertion-ordered association lists, as in CPython.  Stateful code is
modelled by explicit state passing over `Sys`; raising is modelled by
`Except PyErr`.
-/

namespace RagMetrics

/-- Model of a Python runtime value.  `vexc` is an exception object
(type name, message).  `vobj` is an arbitrary structured object carrying:
whether it has a `model_dump` method and what that returns (`some none`
means the method raises), likewise for a `dict` method, the name of its
type (`UUID`, `datetime`, `struct_time`, ...), its `str()` rendering, and
its `repr()` rendering (`none` means `repr` raises). -/
inductive PyVal where
  | vnone : PyVal
  | vbool : Bool → PyVal
  | vint : Int → PyVal
  | vstr : String → PyVal
  | vlist : List PyVal → PyVal
  | vdict : List (String × PyVal) → PyVal
  | vexc : String → String → PyVal
  | vobj : Option (Option PyVal) → Option (Option PyVal) → String → String → Option String → PyVal

/-- A Python dict: insertion-ordered association list (CPython semantics). -/
abbrev PyDict := List (String × PyVal)

/-- Python truthiness (`bool(v)`). -/
def truthy : PyVal → Bool
  | .vnone => false
  | .vbool b => b
  | .vint n => n != 0
  | .vstr s => s != ""
  | .vlist xs => !xs.isEmpty
  | .vdict kvs => !kvs.isEmpty
  | .vexc _ _ => true
  | .vobj _ _ _ _ _ => true

/-- `d.get(k)` without default: the first binding of `k`, if any. -/
def dget (d : PyDict) (k : String) : Option PyVal :=
  (d.find? (fun p => p.1 == k)).map Prod.snd

/-- `d.get(k, default)`. -/
def dgetD (d : PyDict) (k : String) (v : PyVal) : PyVal :=
  (dget d k).getD v

/-- Key membership (`k in d`). -/
def dmem (d : PyDict) (k : String) : Bool :=
  d.any (fun p => p.1 == k)

/-- Remove a key from a dict (the removal half of `d.pop(k, default)`). -/
def derase (d : PyDict) (k : String) : PyDict :=
  d.filter (fun p => p.1 != k)

/-- The per-entry rewrite used by `dset` when the key already exists. -/
def updFn (k : String) (v : PyVal) : String × PyVal → String × PyVal :=
  fun p => if p.1 == k then (k, v) else p

/-- `d[k] = v`: update in place keeping the insertion position if the key
exists, append otherwise (CPython dict semantics). -/
def dset (d : PyDict) (k : String) (v : PyVal) : PyDict :=
  if dmem d k then d.map (updFn k v) else d ++ [(k, v)]

/-- `d.update(e)`: assign every binding of `e` into `d`, left to right. -/
def dupdate (d e : PyDict) : PyDict :=
  e.foldl (fun acc p => dset acc p.1 p.2) d

/-- The dict display `{**a, **b, **c}`: build a fresh dict, updating with
each mapping left to right, so later layers override earlier ones. -/
def pyMerge3 (a b c : PyDict) : PyDict :=
  dupdate (dupdate (dupdate [] a) b) c

/-- The keys of a dict are pairwise distinct.  Every dict produced by the
CPython runtime satisfies this. -/
def KeysNodup (d : PyDict) : Prop := (d.map Prod.fst).Nodup

mutual

/-- Whether the standard-library JSON encoder accepts a value without a
`default` hook: exceptions and arbitrary structured objects are rejected
with a `TypeError`. -/
def jsonEncodable : PyVal → Bool
  | .vnone => true
  | .vbool _ => true
  | .vint _ => true
  | .vstr _ => true
  | .vlist xs => jsonEncodableList xs
  | .vdict kvs => jsonEncodableKVs kvs
  | .vexc _ _ => false
  | .vobj _ _ _ _ _ => false

def jsonEncodableList : List PyVal → Bool
  | [] => true
  | x :: xs => jsonEncodable x && jsonEncodableList xs

def jsonEncodableKVs : List (String × PyVal) → Bool
  | [] => true
  | p :: xs => jsonEncodable p.2 && jsonEncodableKVs xs

end

/-- A rough `str()` coercion, used only for bookkeeping strings. -/
def pyStr : PyVal → String
  | .vnone => "None"
  | .vbool b => if b then "True" else "False"
  | .vint n => toString n
  | .vstr s => s
  | .vlist _ => "<list>"
  | .vdict _ => "<dict>"
  | .vexc _ msg => msg
  | .vobj _ _ _ strv _ => strv

/-- The Python exceptions the embedded code raises or observes:
`user` is an exception raised by wrapped user code or a callback
(type name, message); the others are the typed RagMetrics errors of
`api.py` plus the `TypeError` the standard JSON encoder raises on a value
it cannot serialize, and `ValueError`. -/
inductive PyErr where
  | user : String → String → PyErr
  | auth : String → PyErr
  | api : String → PyErr
  | config : String → PyErr
  | rme : String → PyErr
  | typeErr : String → PyErr
  | valueErr : String → PyErr
  | attrErr : String → PyErr

/-- `str(exc)`: the message of the exception. -/
def pyErrStr : PyErr → String
  | .user _ msg => msg
  | .auth msg => msg
  | .api msg => msg
  | .config msg => msg
  | .rme msg => msg
  | .typeErr msg => msg
  | .valueErr msg => msg
  | .attrErr msg => msg

/-- The mapping-splat `{**(x or {})}`: a dict contributes its bindings, a
falsy value contributes the empty mapping, and a truthy non-mapping
raises `TypeError` (in this value model only dicts are mappings; `vobj`
carries no mapping protocol, so a truthy object raises too). -/
def splatOrEmpty : PyVal → Except PyErr PyDict
  | .vdict kvs => .ok kvs
  | v => if truthy v then .error (.typeErr "argument after ** must be a mapping")
         else .ok []

/-- The mutable fields of `RagMetricsClient` (`api.py`, `__init__`). -/
structure ClientState where
  access_token : Option String
  base_url : String
  logging_off : Bool
  metadata : Option PyDict
  conversation_id : String
  test_logged_trace_ids : List String

/-- One HTTP request handed to the transport (`requests.request`). -/
structure Request where
  endpoint : String
  method : String
  jsonBody : Option PyVal
  params : PyDict
  authed : Bool

/-- The world threaded through the embedded code: the client state, a
supply counter for `uuid.uuid4()`, the current clock reading for
`time.time()`, the list of HTTP requests actually handed to the
transport, and a scratch event log that user-supplied callbacks and
delegates may append to (making their invocation observable). -/
structure Sys where
  client : ClientState
  freshCtr : Nat
  now : Int
  emitted : List Request
  userEvents : List String

/-- Deterministic stand-in for `str(uuid.uuid4())`: the n-th identifier
drawn from the supply. -/
def uuidGen (n : Nat) : String := "uuid-" ++ toString n

/-- `RagMetricsClient.new_conversation(id=None)` (`api.py` 112-124):
replace the conversation identifier wholesale, generating a fresh one
when no explicit identifier is given. -/
def new_conversation (idOpt : Option String) (s : Sys) : Sys :=
  match idOpt with
  | some i => { s with client := { s.client with conversation_id := i } }
  | none =>
    { s with
      client := { s.client with conversation_id := uuidGen s.freshCtr },
      freshCtr := s.freshCtr + 1 }

/-- An HTTP response: status code and parsed JSON body (`none` models a
body that is not valid JSON). -/
structure HttpResp where
  status : Nat
  body : Option PyVal

/-- The ambient environment of a call: the remote collector (a function
from requests to responses) and the result of the call-stack walk
`_find_external_caller` (stack introspection is modelled as an
environment-supplied string). -/
structure Env where
  server : Request → HttpResp
  caller : String

/-- `RagMetricsClient._make_request` (`api.py` 376-405).  The transport
(`requests.request` with a `json=` argument) first serializes the body
with the standard JSON encoder and no `default` hook, so a body the
encoder rejects raises `TypeError` before any request is issued; no
except-clause of `_make_request` catches `TypeError`, so it propagates.
Otherwise the request is issued; the `Authorization: Token ...` header is
attached exactly when an access token is present.  2xx responses yield
the parsed JSON (invalid JSON raises an API error), 401 and 403 raise an
authentication error, and other non-2xx statuses raise an API error. -/
def _make_request (env : Env) (endpoint method : String) (jsonBody : Option PyVal)
    (params : PyDict) (s : Sys) : Except PyErr PyVal × Sys :=
  let bodyOk := match jsonBody with
    | some b => jsonEncodable b
    | none => true
  if !bodyOk then
    (.error (.typeErr "Object is not JSON serializable"), s)
  else
    let req : Request :=
      { endpoint := endpoint, method := method, jsonBody := jsonBody,
        params := params, authed := s.client.access_token.isSome }
    let s1 := { s with emitted := s.emitted ++ [req] }
    let resp := env.server req
    if resp.status < 400 then
      match resp.body with
      | some v => (.ok v, s1)
      | none => (.error (.api "Invalid JSON response"), s1)
    else if resp.status == 401 then
      (.error (.auth "Authentication failed"), s1)
    else if resp.status == 403 then
      (.error (.auth "Permission denied"), s1)
    else
      (.error (.api "API request failed"), s1)

/-- The continuation test of the conversation heuristic (`api.py`
220-224): a dict message is a continuation when its `tool_call_id` or
`tool_calls` entry is truthy or its `role` is one of `assistant`, `tool`,
`system`; a non-dict message is never a continuation. -/
def isContinuationMsg : PyVal → Bool
  | .vdict kvs =>
      truthy (dgetD kvs "tool_call_id" .vnone) ||
      truthy (dgetD kvs "tool_calls" .vnone) ||
      (match dget kvs "role" with
       | some (.vstr r) => r == "assistant" || r == "tool" || r == "system"
       | _ => false)
  | _ => false

/-- The new-interaction heuristic of `_log_trace` (`api.py` 218-228): a
single-element list whose sole message is not a continuation, or a plain
string, is likely a new interaction; anything else is not. -/
def isLikelyNewInteraction : PyVal → Bool
  | .vlist [m] => !(isContinuationMsg m)
  | .vstr _ => true
  | _ => false

/-- Response normalization in `_log_trace` (`api.py` 237-241): call
`model_dump()` if present, else `dict()` if present, else keep the
response.  These calls are not guarded, so a raising dump method
propagates. -/
def processResponse : PyVal → Except PyErr PyVal
  | .vobj (some (some v)) _ _ _ _ => .ok v
  | .vobj (some none) _ kind _ _ =>
      .error (.user "Exception" ("model_dump raised on " ++ kind))
  | .vobj none (some (some v)) _ _ _ => .ok v
  | .vobj none (some none) kind _ _ =>
      .error (.user "Exception" ("dict raised on " ++ kind))
  | .vobj none none a b c => .ok (.vobj none none a b c)
  | v => .ok v

/-- Union metadata in `_log_trace` (`api.py` 243-247): start empty,
update with the client-level metadata when it is a dict, then with the
per-call `metadata_llm` when it is a dict. -/
def unionMetadata (clientMeta : Option PyDict) (metadata_llm : PyVal) : PyDict :=
  let u1 := match clientMeta with
    | some d => dupdate [] d
    | none => []
  match metadata_llm with
  | .vdict kvs => dupdate u1 kvs
  | _ => u1

/-- The arguments of `RagMetricsClient._log_trace` (`api.py` 158-174).
`kwargs` is the extra passthrough mapping merged into the payload root. -/
structure LogTraceArgs where
  input_messages : PyVal
  response : PyVal
  metadata_llm : PyVal
  contexts : PyVal
  expected : PyVal
  duration : Int
  tools : PyVal
  callback_result : PyVal
  conversation_id : PyVal
  force_new_conversation : PyVal
  error : Option PyErr
  model_name : PyVal
  tool_choice : PyVal
  kwargs : PyDict

/-- The trace payload built by `_log_trace` before the callback result
and the extra kwargs are applied (`api.py` 249-268). -/
def logTracePayload (caller rawId : String) (traceCid : PyVal) (a : LogTraceArgs)
    (clientMeta : Option PyDict) (respProcessed : PyVal) : PyDict :=
  [("raw", .vdict [
      ("input", a.input_messages),
      ("output", respProcessed),
      ("id", .vstr rawId),
      ("duration", .vint a.duration),
      ("caller", .vstr caller),
      ("error", match a.error with
        | some e => .vstr (pyErrStr e)
        | none => .vnone)]),
   ("metadata", .vdict (unionMetadata clientMeta a.metadata_llm)),
   ("contexts", a.contexts),
   ("expected", a.expected),
   ("tools", a.tools),
   ("tool_choice", a.tool_choice),
   ("model_name", a.model_name),
   ("input", .vnone),
   ("output", .vnone),
   ("scores", .vnone),
   ("conversation_id", traceCid)]

/-- Overlay of the callback result on the payload (`api.py` 270-274):
for each of `input`, `output`, `expected`, `scores`, copy the value from
the callback result when the key is present there. -/
def applyCallbackResult (payload : PyDict) (cr : PyVal) : PyDict :=
  match cr with
  | .vdict kvs =>
      ["input", "output", "expected", "scores"].foldl
        (fun acc key => match dget kvs key with
          | some v => dset acc key v
          | none => acc) payload
  | _ => payload

/-- Conversation resolution in `_log_trace` (`api.py` 208-235): a truthy
`force_new_conversation` always starts a new conversation (replacing the
client identifier); an explicit non-`None` conversation identifier is
used verbatim for this trace without touching the client state; otherwise
the heuristic decides between starting a new conversation and reusing the
client identifier unchanged.  Returns the identifier for this trace and
the updated world. -/
def resolveConversation (a : LogTraceArgs) (s : Sys) : PyVal × Sys :=
  if truthy a.force_new_conversation then
    let sN := new_conversation none s
    (.vstr sN.client.conversation_id, sN)
  else
    match a.conversation_id with
    | .vnone =>
      if isLikelyNewInteraction a.input_messages then
        let sN := new_conversation none s
        (.vstr sN.client.conversation_id, sN)
      else (.vstr s.client.conversation_id, s)
    | cid => (cid, s)

/-- `RagMetricsClient._log_trace` (`api.py` 158-290).  Returns `none`
without touching the network when logging is off or no access token is
present; otherwise resolves the conversation identifier (forced, explicit
or heuristic), normalizes the response, builds the payload, applies the
callback result and the extra kwargs, and posts to the logtrace
endpoint.  Transport and serialization errors propagate. -/
def _log_trace (env : Env) (a : LogTraceArgs) (s : Sys) :
    Except PyErr (Option PyVal) × Sys :=
  if s.client.logging_off then (.ok none, s)
  else if s.client.access_token.isNone then (.ok none, s)
  else
    let convPair := resolveConversation a s
    let traceCid := convPair.1
    let s1 := convPair.2
    match processResponse a.response with
    | .error e => (.error e, s1)
    | .ok respProcessed =>
      let rawId := uuidGen s1.freshCtr
      let s2 := { s1 with freshCtr := s1.freshCtr + 1 }
      let payload0 := logTracePayload env.caller rawId traceCid a s2.client.metadata respProcessed
      let payload1 := applyCallbackResult payload0 a.callback_result
      let payload := dupdate payload1 a.kwargs
      match _make_request env "/api/client/logtrace/" "post" (some (.vdict payload)) [] s2 with
      | (.error e, s3) => (.error e, s3)
      | (.ok rd, s3) =>
        if truthy rd then
          match rd with
          | .vdict kvs =>
            let traceId := dgetD kvs "id" .vnone
            let s4 :=
              if truthy traceId then
                { s3 with client := { s3.client with
                    test_logged_trace_ids :=
                      s3.client.test_logged_trace_ids ++ [pyStr traceId] } }
              else s3
            (.ok (some rd), s4)
          | _ => (.ok none, s3)
        else (.ok none, s3)

/-- The instrumentation-only parameters popped by `_pop_ragmetrics_kwargs`
(`wrapper_utils.py` 11-18). -/
structure RMParams where
  user_call_metadata : PyVal
  contexts : PyVal
  expected : PyVal
  force_new_conversation : PyVal

/-- `_pop_ragmetrics_kwargs` (`wrapper_utils.py` 11-18): pop `metadata`,
`contexts`, `expected` (default `None`) and `force_new_conversation`
(default `False`) out of the kwargs, returning the popped values and the
remaining kwargs. -/
def _pop_ragmetrics_kwargs (kwargs : PyDict) : RMParams × PyDict :=
  ({ user_call_metadata := dgetD kwargs "metadata" .vnone,
     contexts := dgetD kwargs "contexts" .vnone,
     expected := dgetD kwargs "expected" .vnone,
     force_new_conversation := dgetD kwargs "force_new_conversation" (.vbool false) },
   derase (derase (derase (derase kwargs "metadata") "contexts") "expected")
     "force_new_conversation")

/-- A user callback: may have world effects and may raise. -/
def Callback := PyVal → PyVal → Sys → Except PyErr PyVal × Sys

/-- A Python callable taking positional and keyword arguments; may have
world effects and may raise. -/
def PyCallable := List PyVal → PyDict → Sys → Except PyErr PyVal × Sys

/-- Lift an effect-free delegate to a callable. -/
def liftPure (f : List PyVal → PyDict → Except PyErr PyVal) : PyCallable :=
  fun args kwargs s => (f args kwargs, s)

/-- `_execute_callback` (`wrapper_utils.py` 21-29): run the callback when
present; exceptions from it are caught and logged, leaving the result at
`None`. -/
def _execute_callback (callback : Option Callback) (log_input log_response : PyVal)
    (s : Sys) : PyVal × Sys :=
  match callback with
  | none => (.vnone, s)
  | some cb =>
    match cb log_input log_response s with
    | (.ok v, s1) => (v, s1)
    | (.error _, s1) => (.vnone, s1)

/-- The result record of `_extract_final_log_parameters`. -/
structure FinalLogParams where
  final_model_name : PyVal
  final_tools : PyVal
  final_tool_choice : PyVal
  final_metadata_for_log : PyDict
  passthrough_kwargs : PyDict

/-- `_extract_final_log_parameters` (`wrapper_utils.py` 46-85): dynamic
details take precedence over static fallbacks (a key present in the
dynamic details wins even when its value is `None`); the three metadata
layers are merged left to right by the dict display at lines 66-70
(client metadata, then the dynamic `additional_llm_metadata`, then the
per-call user metadata), later layers overriding earlier ones — the
display evaluates its splats in that order, so a truthy non-mapping
dynamic layer or user metadata raises `TypeError` out of the function;
and the passthrough kwargs are the remaining call kwargs minus `model`,
`tools`, `tool_choice`, `endpoint`, `method`. -/
def _extract_final_log_parameters (dynamic_details : PyDict)
    (static_model_name static_tools : PyVal)
    (rm_client_metadata : Option PyDict) (user_call_metadata : PyVal)
    (original_call_remaining_kwargs : PyDict) : Except PyErr FinalLogParams :=
  match splatOrEmpty (dgetD dynamic_details "additional_llm_metadata" .vnone) with
  | .error e => .error e
  | .ok dm =>
    match splatOrEmpty user_call_metadata with
    | .error e => .error e
    | .ok um =>
      .ok { final_model_name := dgetD dynamic_details "model_name" static_model_name,
            final_tools := dgetD dynamic_details "tools" static_tools,
            final_tool_choice := dgetD dynamic_details "tool_choice" .vnone,
            final_metadata_for_log := pyMerge3 (rm_client_metadata.getD []) dm um,
            passthrough_kwargs := original_call_remaining_kwargs.filter
              (fun p => !(p.1 == "model" || p.1 == "tools" || p.1 == "tool_choice" ||
                p.1 == "endpoint" || p.1 == "method")) }

/-- The installation-time arguments of `create_sync_wrapper`
(`wrapper_utils.py` 87-97) other than the original method. -/
structure WrapperCfg where
  is_target_instance_method : Bool
  callback : Option Callback
  input_extractor : List PyVal → PyDict → PyVal
  output_extractor : PyVal → PyVal
  dynamic_llm_details_extractor : PyDict → PyDict
  static_model_name : PyVal
  static_tools : PyVal

/-- The runtime body of the wrapper produced by `create_sync_wrapper`
(`wrapper_utils.py` 105-185).  When logging is off the original is called
directly with the unmodified kwargs.  Otherwise the four instrumentation
kwargs are popped, input and dynamic details are extracted, the original
is called (the instance-method branch re-assembles `args[0], *args[1:]`,
which is the same argument list), and the output extractor runs only on
success.  The `_extract_final_log_parameters` call at line 146 has no
guard, so the `TypeError` it raises for a truthy non-mapping metadata
layer propagates out of the wrapper (replacing any captured delegate
exception, skipping callback and trace).  Otherwise the callback runs
with errors caught, `_log_trace` is called with all errors caught, and
finally the original exception, if any, is re-raised, else the original
result is returned. -/
def createSyncWrapperCall (cfg : WrapperCfg) (original : PyCallable) (env : Env)
    (args : List PyVal) (kwargs : PyDict) (s : Sys) : Except PyErr PyVal × Sys :=
  if s.client.logging_off then original args kwargs s
  else
    let start_time := s.now
    let pk := _pop_ragmetrics_kwargs kwargs
    let rm_params := pk.1
    let kw := pk.2
    let log_input := cfg.input_extractor args kw
    let dynamic_details := cfg.dynamic_llm_details_extractor kw
    let callRes :=
      if cfg.is_target_instance_method && !args.isEmpty then
        match args with
        | a0 :: rest => original (a0 :: rest) kw s
        | [] => original args kw s
      else original args kw s
    let s1 := callRes.2
    let duration := s1.now - start_time
    let log_response := match callRes.1 with
      | .ok v => cfg.output_extractor v
      | .error _ => .vnone
    match _extract_final_log_parameters dynamic_details cfg.static_model_name
      cfg.static_tools s1.client.metadata rm_params.user_call_metadata kw with
    | .error e => (.error e, s1)
    | .ok flp =>
      let cbPair := _execute_callback cfg.callback log_input log_response s1
      let a : LogTraceArgs :=
        { input_messages := log_input,
          response := log_response,
          expected := rm_params.expected,
          contexts := rm_params.contexts,
          metadata_llm := if flp.final_metadata_for_log.isEmpty then .vnone
            else .vdict flp.final_metadata_for_log,
          error := match callRes.1 with | .error e => some e | .ok _ => none,
          duration := duration,
          model_name := flp.final_model_name,
          tools := flp.final_tools,
          tool_choice := flp.final_tool_choice,
          callback_result := cbPair.1,
          force_new_conversation := rm_params.force_new_conversation,
          conversation_id := .vnone,
          kwargs := flp.passthrough_kwargs }
      let s3 := (_log_trace env a cbPair.2).2
      match callRes.1 with
      | .error e => (.error e, s3)
      | .ok v => (.ok v, s3)

/-- A Python function object: its body plus its attribute dict. -/
structure PyFunction where
  call : Env → List PyVal → PyDict → Sys → Except PyErr PyVal × Sys
  attrs : PyDict

/-- `create_sync_wrapper` (`wrapper_utils.py` 87-190): the replacement
callable, carrying the `__ragmetrics_wrapped__` marker attribute. -/
def create_sync_wrapper (cfg : WrapperCfg) (original : PyCallable) : PyFunction :=
  { call := createSyncWrapperCall cfg original,
    attrs := [("__wrapped_method__", .vstr "unknown_method"),
              ("__ragmetrics_wrapped__", .vbool true)] }

/-- The metadata extraction of `create_wrapper`
(`openai_chat_wrapper.py` 150):
`openai_kwargs.pop("metadata", {}).copy() if "metadata" in openai_kwargs
else {}`.  A dict copies to an equal dict and a list has `list.copy`; any
other present value (`None`, numbers, strings, exceptions — and `vobj`,
whose model carries only the dump methods) has no `copy` attribute, so
the expression raises `AttributeError` before the original method is
ever called. -/
def popMetadataCopy (kwargs : PyDict) : Except PyErr PyVal :=
  if dmem kwargs "metadata" then
    match dgetD kwargs "metadata" .vnone with
    | .vdict kvs => .ok (.vdict kvs)
    | .vlist xs => .ok (.vlist xs)
    | _ => .error (.attrErr "object has no attribute copy")
  else .ok (.vdict [])

/-- The runtime body of `create_wrapper` inside
`wrap_openai_chat_completions_create` (`openai_chat_wrapper.py` 140-206).
There is no disabled check here.  The four instrumentation kwargs are
popped; popping `metadata` calls `.copy()` on the popped value, so a
present metadata value without a `copy` method raises `AttributeError`
before the original runs.  Otherwise the original is called with the
cleaned kwargs, and then the `finally` block runs: when the original
raised, `response` was never bound, so the bare `return` statement
suppresses the in-flight exception and returns `None` without logging;
when the original returned, the callback runs with errors caught and
`_log_trace` is called without any guard, so its exceptions propagate;
the response is then returned. -/
def openaiCreateWrapperCall (callback : Option Callback)
    (original_create_method : PyCallable) (env : Env)
    (args : List PyVal) (kwargs : PyDict) (s : Sys) : Except PyErr PyVal × Sys :=
  let contexts := dgetD kwargs "contexts" .vnone
  let expected := dgetD kwargs "expected" .vnone
  match popMetadataCopy kwargs with
  | .error e => (.error e, s)
  | .ok metadata =>
    let force_new_conversation := dgetD kwargs "force_new_conversation" (.vbool false)
    let openai_kwargs :=
      derase (derase (derase (derase kwargs "contexts") "expected") "metadata")
        "force_new_conversation"
    let model_name := dgetD openai_kwargs "model" .vnone
    let messages := dgetD openai_kwargs "messages" (.vlist [])
    let tools := dgetD openai_kwargs "tools" .vnone
    let tool_choice := dgetD openai_kwargs "tool_choice" .vnone
    let start_time := s.now
    match original_create_method args openai_kwargs s with
    | (.error _, s1) => (.ok .vnone, s1)
    | (.ok response, s1) =>
      let duration := s1.now - start_time
      let cbPair : PyVal × Sys :=
        match callback with
        | none => (.vnone, s1)
        | some cb =>
          match cb messages response s1 with
          | (.ok v, s2) => (v, s2)
          | (.error _, s2) => (.vnone, s2)
      let a : LogTraceArgs :=
        { input_messages := messages,
          response := response,
          metadata_llm := metadata,
          contexts := contexts,
          expected := expected,
          duration := duration,
          model_name := model_name,
          tools := tools,
          tool_choice := tool_choice,
          callback_result := cbPair.1,
          force_new_conversation := force_new_conversation,
          error := none,
          conversation_id := .vnone,
          kwargs := [] }
      match _log_trace env a cbPair.2 with
      | (.error e, s3) => (.error e, s3)
      | (.ok _, s3) => (.ok response, s3)

/-- `wrap_openai_chat_completions_create` (`openai_chat_wrapper.py`
108-211) replaces the `create` method with the bare `create_wrapper`
function; unlike `create_sync_wrapper`, no marker attribute is attached
to the replacement. -/
def wrap_openai_chat_completions_create (callback : Option Callback)
    (original_create_method : PyCallable) : PyFunction :=
  { call := openaiCreateWrapperCall callback original_create_method,
    attrs := [] }

/-- The tail of the `serialize_default` fallback chain, after the
structured-dump attempts: `UUID` and `datetime` values become their
string rendering, `struct_time` its formatted string, anything else its
`repr`, and a raising `repr` degrades to a fixed placeholder string. -/
def serializeChainRest (kind strv : String) (reprv : Option String) : PyVal :=
  if kind == "UUID" || kind == "datetime" then .vstr strv
  else if kind == "struct_time" then .vstr strv
  else match reprv with
    | some r => .vstr r
    | none => .vstr ("<unserializable:" ++ kind ++ ">")

/-- `serialize_default` (`api.py` 63-81): try `model_dump()`, then
`dict()` (a raising method falls through), then the `UUID`, `datetime`,
`struct_time` and `Exception` coercions to strings, then `repr`, and
finally a fixed placeholder when even `repr` raises.  The function is
total: it never raises.  (The JSON encoder only invokes this hook on
values it cannot encode itself; for primitive values the `repr` branch is
modelled by the plain string rendering.) -/
def serialize_default : PyVal → PyVal
  | .vobj (some (some v)) _ _ _ _ => v
  | .vobj _ (some (some v)) _ _ _ => v
  | .vobj _ _ kind strv reprv => serializeChainRest kind strv reprv
  | .vexc _ msg => .vstr msg
  | v => .vstr (pyStr v)

/-- `RagMetricsObject.save` (`api.py` 554-626), with `to_dict()` already
evaluated to `payload`.  There is no local authentication check: the
request is issued even without a token, and the raised error is whatever
`_make_request` maps the HTTP response to.  A new trace uses the logtrace
endpoint with the payload wrapped under `raw` when needed; everything else
uses the generic save endpoint.  A dict response must carry an id at the
root, under the object type, or under `trace`; otherwise an API error is
raised. -/
def objectSave (env : Env) (object_type : String) (payload : PyDict)
    (edit_mode : Bool) (s : Sys) : Except PyErr PyVal × Sys :=
  if object_type == "" then (.error (.valueErr "object_type must be defined."), s)
  else
    let isNewTrace := object_type == "trace" && !edit_mode
    let ep := if isNewTrace then "/api/client/logtrace/"
      else "/api/client/" ++ object_type ++ "/save/"
    let payload1 := if isNewTrace && !(dmem payload "raw")
      then [("raw", PyVal.vdict payload)] else payload
    match _make_request env ep "post" (some (.vdict payload1)) [] s with
    | (.error e, s1) => (.error e, s1)
    | (.ok rd, s1) =>
      match rd with
      | .vdict kvs =>
        let new_id : PyVal :=
          if dmem kvs "id" then dgetD kvs "id" .vnone
          else match dget kvs object_type with
            | some (.vdict okvs) => dgetD okvs "id" .vnone
            | _ => match dget kvs "trace" with
              | some (.vdict tkvs) => dgetD tkvs "id" .vnone
              | _ => .vnone
        if truthy new_id then (.ok new_id, s1)
        else (.error (.api "Save successful but no ID returned"), s1)
      | _ => (.error (.api "Save failed: unexpected response structure"), s1)

/-- `RagMetricsObject.download` (`api.py` 628-696).  Unlike `save`, this
checks the access token locally and raises an authentication error before
any network attempt when no token is present.  When both an id and a name
are given the id wins.  The returned value is the object data extracted
from the response (`none` models the `return None` paths). -/
def objectDownload (env : Env) (object_type : String) (idArg nameArg : Option PyVal)
    (s : Sys) : Except PyErr (Option PyVal) × Sys :=
  if s.client.access_token.isNone then
    (.error (.auth "RagMetrics client not authenticated. Please login first."), s)
  else if object_type == "" then
    (.error (.valueErr "object_type must be defined to download."), s)
  else if idArg.isNone && nameArg.isNone then
    (.error (.valueErr "Either id or name must be provided for download."), s)
  else
    let params : PyDict := match idArg with
      | some i => [("id", i)]
      | none => [("name", nameArg.getD .vnone)]
    match _make_request env ("/api/client/" ++ object_type ++ "/download/")
        "get" none params s with
    | (.error e, s1) => (.error e, s1)
    | (.ok rd, s1) =>
      match rd with
      | .vdict kvs =>
        let od0 := dgetD kvs object_type .vnone
        let obj_data := match od0 with
          | .vdict okvs => PyVal.vdict okvs
          | _ => match dget kvs "status" with
            | some (.vstr st) => if st == "success" then dgetD kvs "trace" .vnone else rd
            | _ => rd
        if !(truthy obj_data) then (.ok none, s1)
        else (.ok (some obj_data), s1)
      | _ => (.ok none, s1)

/-- Python `a or b` on optional strings: an empty string is falsy. -/
def truthyStrOpt : Option String → Option String
  | some st => if st == "" then none else some st
  | none => none

/-- The failure cleanup of `login` (`api.py` 364-374): drop the token and
turn logging off. -/
def loginClear (s : Sys) : Sys :=
  { s with client := { s.client with access_token := none, logging_off := true } }

/-- The catch-all failure of `login`: any unexpected exception is wrapped
in a generic RagMetrics error after the cleanup. -/
def loginUnexpected (s : Sys) : Except PyErr Bool × Sys :=
  (.error (.rme "An unexpected error occurred during API key validation"), loginClear s)

/-- `RagMetricsClient.login` (`api.py` 329-374).  `off=True` disables
logging and clears the token.  A missing (or empty) key raises a
configuration error before any state change.  Otherwise the base URL is
resolved, the token is cleared, and the key is validated against the
login endpoint with no auth header; on a response carrying
`user.username` the key becomes the access token and a fresh conversation
starts (the logging-off flag is not touched); auth and API errors from
the validation clear the token, turn logging off and re-raise; any other
exception does the same but is wrapped in a generic error. -/
def login (env : Env) (key envKey base_url envBaseUrl : Option String)
    (off : Bool) (s : Sys) : Except PyErr Bool × Sys :=
  if off then
    (.ok true, { s with client := { s.client with logging_off := true, access_token := none } })
  else
    match (truthyStrOpt key).orElse (fun _ => truthyStrOpt envKey) with
    | none =>
      (.error (.config "Missing API key. Provide key to login or set RAGMETRICS_API_KEY."), s)
    | some api_key_to_use =>
      let burl := match (truthyStrOpt base_url) with
        | some b => b
        | none => envBaseUrl.getD s.client.base_url
      let s1 := { s with client := { s.client with base_url := burl, access_token := none } }
      match _make_request env "/api/client/login/" "post"
          (some (.vdict [("key", .vstr api_key_to_use)])) [] s1 with
      | (.ok rd, s2) =>
        match rd with
        | .vdict kvs =>
          match dget kvs "user" with
          | some (.vdict ukvs) =>
            match dget ukvs "username" with
            | some _ =>
              let s3 := { s2 with client := { s2.client with access_token := some api_key_to_use } }
              (.ok true, new_conversation none s3)
            | none => loginUnexpected s2
          | _ => loginUnexpected s2
        | _ => loginUnexpected s2
      | (.error e, s2) =>
        match e with
        | .auth m => (.error (.auth m), loginClear s2)
        | .api m => (.error (.api m), loginClear s2)
        | eo => (.error (.rme (pyErrStr eo)), loginClear s2)

/-- First-of-two on options: the left value when present, else the right
one.  Used to state lookup laws of the precedence merges. -/
def ofirst (a b : Option PyVal) : Option PyVal :=
  match a with
  | some v => some v
  | none => b

/-- A client state with the default base URL and empty bookkeeping. -/
def mkClient (tok : Option String) (loff : Bool) (md : Option PyDict)
    (cid : String) : ClientState :=
  { access_token := tok, base_url := "https://ragmetrics.ai", logging_off := loff,
    metadata := md, conversation_id := cid, test_logged_trace_ids := [] }

/-- A fresh world around a client state. -/
def mkSys (c : ClientState) : Sys :=
  { client := c, freshCtr := 0, now := 0, emitted := [], userEvents := [] }

/-- A collector that accepts every request and returns a fixed trace id. -/
def okServer : Request → HttpResp :=
  fun _ => { status := 200, body := some (.vdict [("id", .vstr "t1")]) }

/-- A collector that rejects every request with a 404. -/
def notFoundServer : Request → HttpResp :=
  fun _ => { status := 404, body := none }

/-- Standard test environment around `okServer`. -/
def envOk : Env := { server := okServer, caller := "caller_fn" }

/-- Test environment around the 404 collector. -/
def envNotFound : Env := { server := notFoundServer, caller := "caller_fn" }

/-- The metadata field of the JSON body of a request, when the body is a
dict. -/
def payloadMetadataOf (r : Request) : Option PyVal :=
  match r.jsonBody with
  | some (.vdict kvs) => dget kvs "metadata"
  | _ => none

/-- The conversation identifier field of the JSON body of a request. -/
def payloadConversationOf (r : Request) : Option PyVal :=
  match r.jsonBody with
  | some (.vdict kvs) => dget kvs "conversation_id"
  | _ => none

theorem ofirst_none_right (a : Option PyVal) : ofirst a none = a := by
  cases a <;> rfl

theorem dget_cons_self (p : String × PyVal) (d : PyDict) (k : String)
    (h : p.1 = k) : dget (p :: d) k = some p.2 := by
  simp [dget, List.find?, beq_iff_eq.mpr h]

theorem dget_cons_ne (p : String × PyVal) (d : PyDict) (k : String)
    (h : p.1 ≠ k) : dget (p :: d) k = dget d k := by
  simp [dget, List.find?, beq_eq_false_iff_ne.mpr h]

theorem dget_append (d e : PyDict) (k : String) :
    dget (d ++ e) k = ofirst (dget d k) (dget e k) := by
  induction d with
  | nil => rfl
  | cons hd tl ih =>
    by_cases h : hd.1 = k
    · rw [List.cons_append, dget_cons_self _ _ _ h, dget_cons_self _ _ _ h]
      rfl
    · rw [List.cons_append, dget_cons_ne _ _ _ h, dget_cons_ne _ _ _ h, ih]

theorem dget_not_mem (d : PyDict) (k : String) (h : k ∉ d.map Prod.fst) :
    dget d k = none := by
  induction d with
  | nil => rfl
  | cons hd tl ih =>
    simp only [List.map_cons, List.mem_cons] at h
    push_neg at h
    rw [dget_cons_ne _ _ _ (fun hx => h.1 hx.symm)]
    exact ih h.2

theorem dget_derase_self (d : PyDict) (k : String) :
    dget (derase d k) k = none := by
  induction d with
  | nil => rfl
  | cons hd tl ih =>
    by_cases h : hd.1 = k
    · have hb : (hd.1 != k) = false := by simp [h]
      rw [show derase (hd :: tl) k = List.filter (fun p => p.1 != k) (hd :: tl) from rfl,
        List.filter_cons, hb]
      exact ih
    · have hb : (hd.1 != k) = true := bne_iff_ne.mpr h
      rw [show derase (hd :: tl) k = List.filter (fun p => p.1 != k) (hd :: tl) from rfl,
        List.filter_cons, hb]
      simp only [if_true]
      rw [dget_cons_ne _ _ _ h]
      exact ih

theorem dget_derase_ne (d : PyDict) (k k2 : String) (hne : k2 ≠ k) :
    dget (derase d k) k2 = dget d k2 := by
  induction d with
  | nil => rfl
  | cons hd tl ih =>
    by_cases h : hd.1 = k
    · have hb : (hd.1 != k) = false := by simp [h]
      have h2 : hd.1 ≠ k2 := by rw [h]; exact fun hx => hne hx.symm
      rw [show derase (hd :: tl) k = List.filter (fun p => p.1 != k) (hd :: tl) from rfl,
        List.filter_cons, hb]
      simp only [Bool.false_eq_true, if_false]
      rw [dget_cons_ne hd tl k2 h2]
      exact ih
    · have hb : (hd.1 != k) = true := bne_iff_ne.mpr h
      rw [show derase (hd :: tl) k = List.filter (fun p => p.1 != k) (hd :: tl) from rfl,
        List.filter_cons, hb]
      simp only [if_true]
      by_cases h2 : hd.1 = k2
      · rw [dget_cons_self hd (List.filter (fun p => p.1 != k) tl) k2 h2,
          dget_cons_self hd tl k2 h2]
      · rw [dget_cons_ne hd (List.filter (fun p => p.1 != k) tl) k2 h2,
          dget_cons_ne hd tl k2 h2]
        exact ih

theorem dmem_iff (d : PyDict) (k : String) :
    dmem d k = true ↔ k ∈ d.map Prod.fst := by
  simp only [dmem, List.any_eq_true, List.mem_map, beq_iff_eq]

theorem dget_map_updFn_self (d : PyDict) (k : String) (v : PyVal)
    (h : dmem d k = true) : dget (d.map (updFn k v)) k = some v := by
  induction d with
  | nil => simp [dmem] at h
  | cons hd tl ih =>
    by_cases h1 : hd.1 = k
    · have hupd : updFn k v hd = (k, v) := by simp [updFn, beq_iff_eq.mpr h1]
      rw [List.map_cons, hupd, dget_cons_self _ _ _ rfl]
    · have h2 : dmem tl k = true := by
        have hx := h
        simp only [dmem, List.any_cons, beq_eq_false_iff_ne.mpr h1,
          Bool.false_or] at hx
        exact hx
      have hupd : updFn k v hd = hd := by simp [updFn, beq_eq_false_iff_ne.mpr h1]
      rw [List.map_cons, hupd, dget_cons_ne _ _ _ h1]
      exact ih h2

theorem dget_map_updFn_ne (d : PyDict) (k k2 : String) (v : PyVal)
    (hne : k2 ≠ k) : dget (d.map (updFn k v)) k2 = dget d k2 := by
  induction d with
  | nil => rfl
  | cons hd tl ih =>
    by_cases h1 : hd.1 = k
    · have hupd : updFn k v hd = (k, v) := by simp [updFn, beq_iff_eq.mpr h1]
      have hh : hd.1 ≠ k2 := by rw [h1]; exact hne.symm
      rw [List.map_cons, hupd, dget_cons_ne _ _ _ hne.symm, ih,
        dget_cons_ne _ _ _ hh]
    · have hupd : updFn k v hd = hd := by simp [updFn, beq_eq_false_iff_ne.mpr h1]
      by_cases h2 : hd.1 = k2
      · rw [List.map_cons, hupd, dget_cons_self _ _ _ h2, dget_cons_self _ _ _ h2]
      · rw [List.map_cons, hupd, dget_cons_ne _ _ _ h2, dget_cons_ne _ _ _ h2, ih]

theorem dmem_false_not_mem (d : PyDict) (k : String) (h : dmem d k = false) :
    k ∉ d.map Prod.fst := by
  intro hx
  have := (dmem_iff d k).mpr hx
  rw [h] at this
  exact Bool.false_ne_true this

theorem dget_dset_self (d : PyDict) (k : String) (v : PyVal) :
    dget (dset d k v) k = some v := by
  unfold dset
  cases hm : dmem d k
  · simp only [Bool.false_eq_true, if_false]
    rw [dget_append, dget_not_mem d k (dmem_false_not_mem d k hm),
      dget_cons_self _ _ _ rfl]
    rfl
  · simp only [if_true]
    exact dget_map_updFn_self d k v hm

theorem dget_dset_ne (d : PyDict) (k k2 : String) (v : PyVal)
    (hne : k2 ≠ k) : dget (dset d k v) k2 = dget d k2 := by
  unfold dset
  cases hm : dmem d k
  · simp only [Bool.false_eq_true, if_false]
    rw [dget_append, dget_cons_ne _ _ _ hne.symm]
    exact ofirst_none_right _
  · simp only [if_true]
    exact dget_map_updFn_ne d k k2 v hne

theorem keysNodup_dset (d : PyDict) (k : String) (v : PyVal)
    (h : KeysNodup d) : KeysNodup (dset d k v) := by
  unfold dset
  cases hm : dmem d k
  · simp only [Bool.false_eq_true, if_false]
    have hk : k ∉ d.map Prod.fst := dmem_false_not_mem d k hm
    unfold KeysNodup at *
    rw [List.map_append]
    refine List.nodup_append.mpr ⟨h, List.nodup_singleton k, ?_⟩
    intro a ha hb
    rw [List.map_singleton, List.mem_singleton] at hb
    subst hb
    exact hk ha
  · simp only [if_true]
    have hmap : List.map Prod.fst (d.map (updFn k v)) = List.map Prod.fst d := by
      rw [List.map_map]
      apply List.map_congr_left
      intro p _
      by_cases hp : p.1 = k
      · simp [Function.comp, updFn, beq_iff_eq.mpr hp, hp]
      · simp [Function.comp, updFn, beq_eq_false_iff_ne.mpr hp]
    unfold KeysNodup at *
    rw [hmap]
    exact h

theorem keysNodup_dupdate (d e : PyDict) (h : KeysNodup d) :
    KeysNodup (dupdate d e) := by
  induction e generalizing d with
  | nil => exact h
  | cons p tl ih => exact ih (dset d p.1 p.2) (keysNodup_dset d p.1 p.2 h)

theorem dget_dupdate (d e : PyDict) (k : String) (he : KeysNodup e) :
    dget (dupdate d e) k = ofirst (dget e k) (dget d k) := by
  induction e generalizing d with
  | nil => rfl
  | cons p tl ih =>
    have he2 : (p.1 :: tl.map Prod.fst).Nodup := by
      simpa [KeysNodup] using he
    have hn : KeysNodup tl := (List.nodup_cons.mp he2).2
    have hp : p.1 ∉ tl.map Prod.fst := (List.nodup_cons.mp he2).1
    rw [show dupdate d (p :: tl) = dupdate (dset d p.1 p.2) tl from rfl,
      ih (dset d p.1 p.2) hn]
    by_cases hk : k = p.1
    · rw [hk, dget_not_mem tl p.1 hp, dget_dset_self, dget_cons_self p tl p.1 rfl]
      rfl
    · rw [dget_dset_ne d p.1 k p.2 hk, dget_cons_ne p tl k (fun hx => hk hx.symm)]

theorem dget_dupdate_not_mem (d e : PyDict) (k : String)
    (h : k ∉ e.map Prod.fst) : dget (dupdate d e) k = dget d k := by
  induction e generalizing d with
  | nil => rfl
  | cons p tl ih =>
    simp only [List.map_cons, List.mem_cons] at h
    push_neg at h
    rw [show dupdate d (p :: tl) = dupdate (dset d p.1 p.2) tl from rfl,
      ih (dset d p.1 p.2) h.2]
    exact dget_dset_ne d p.1 k p.2 h.1

/-- Fixture input extractor modelled on the OpenAI chat one: the
`messages` kwarg. -/
def fixtureInputExtractor : List PyVal → PyDict → PyVal :=
  fun _ kw => dgetD kw "messages" (.vlist [])

/-- Fixture output extractor: the raw result. -/
def fixtureOutputExtractor : PyVal → PyVal := fun r => r

/-- Fixture dynamic-details extractor: model, tools and tool choice from
the call kwargs, no extra dynamic metadata. -/
def fixtureDetailsExtractor : PyDict → PyDict :=
  fun kw => [("model_name", dgetD kw "model" .vnone),
    ("tools", dgetD kw "tools" .vnone),
    ("tool_choice", dgetD kw "tool_choice" .vnone),
    ("additional_llm_metadata", .vdict [])]

/-- Fixture wrapper configuration with no callback. -/
def fixtureCfg : WrapperCfg :=
  { is_target_instance_method := false, callback := none,
    input_extractor := fixtureInputExtractor,
    output_extractor := fixtureOutputExtractor,
    dynamic_llm_details_extractor := fixtureDetailsExtractor,
    static_model_name := .vnone, static_tools := .vnone }

/-- A single user chat message. -/
def userMsg : PyVal := .vdict [("role", .vstr "user"), ("content", .vstr "hi")]

/-- Chat-completion call kwargs for the fixtures. -/
def chatKw : PyDict := [("model", .vstr "m1"), ("messages", .vlist [userMsg])]

/-- A delegate that always raises. -/
def boomDelegate : PyCallable :=
  liftPure (fun _ _ => .error (.user "Exception" "boom"))

/-- A delegate that always returns a fixed answer. -/
def okDelegate : PyCallable := liftPure (fun _ _ => .ok (.vstr "Paris"))

/-- A logged-in, logging-on world. -/
def sTok : Sys := mkSys (mkClient (some "tok") false none "conv0")

/-- C1: the claim asserts that for every supported target kind the
installed wrapper re-raises the delegate exception unchanged after the
trace is emitted.  The generic `create_sync_wrapper` wrapper does exactly
that (second and third conjuncts: the same exception value comes back and
exactly one trace request was emitted before it).  But the OpenAI chat
wrapper installed by `wrap_openai_chat_completions_create` violates it:
its bare `return` inside the `finally` block suppresses the in-flight
exception, so a raising delegate makes the wrapper return `None` to the
caller with no trace emitted at all (first conjunct). -/
theorem c1_exception_passthrough_bug :
    ((wrap_openai_chat_completions_create none boomDelegate).call envOk [] chatKw sTok
      = (.ok .vnone, sTok)) ∧
    ((create_sync_wrapper fixtureCfg boomDelegate).call envOk [] chatKw sTok).1
      = .error (.user "Exception" "boom") ∧
    ((create_sync_wrapper fixtureCfg boomDelegate).call envOk [] chatKw sTok).2.emitted.length
      = 1 := by
  refine ⟨rfl, rfl, rfl⟩

/-- A callback without world effects. -/
def liftPureCallback (f : PyVal → PyVal → Except PyErr PyVal) : Callback :=
  fun i r s => (f i r, s)

theorem resolveConversation_emitted (a : LogTraceArgs) (s : Sys) :
    (resolveConversation a s).2.emitted = s.emitted := by
  unfold resolveConversation new_conversation
  split
  · rfl
  · split
    · split <;> rfl
    · rfl

theorem make_request_sys_cases (env : Env) (ep m : String) (b : Option PyVal)
    (p : PyDict) (s : Sys) :
    ((_make_request env ep m b p s).2) = s ∨
    ∃ r, ((_make_request env ep m b p s).2) = { s with emitted := s.emitted ++ [r] } := by
  simp only [_make_request]
  repeat' split
  all_goals first
    | exact Or.inl rfl
    | exact Or.inr ⟨_, rfl⟩

theorem make_request_pair_cases (env : Env) (ep m : String) (b : Option PyVal)
    (p : PyDict) (s : Sys) (e2 : Except PyErr PyVal) (s2 : Sys)
    (h : _make_request env ep m b p s = (e2, s2)) :
    s2 = s ∨ ∃ r, s2 = { s with emitted := s.emitted ++ [r] } := by
  have hc := make_request_sys_cases env ep m b p s
  rw [h] at hc
  simpa using hc

theorem log_trace_emitted_cases (env : Env) (a : LogTraceArgs) (s : Sys) :
    ((_log_trace env a s).2).emitted = s.emitted ∨
    ∃ r, ((_log_trace env a s).2).emitted = s.emitted ++ [r] := by
  have hce : (resolveConversation a s).2.emitted = s.emitted :=
    resolveConversation_emitted a s
  simp only [_log_trace]
  split
  · exact Or.inl rfl
  · split
    · exact Or.inl rfl
    · split
      · exact Or.inl hce
      · split
        · rename_i e s3 heq
          rcases make_request_pair_cases _ _ _ _ _ _ _ _ heq with h | ⟨r, h⟩
          · exact Or.inl (by simp [h, hce])
          · exact Or.inr ⟨r, by simp [h, hce]⟩
        · rename_i rd s3 heq
          rcases make_request_pair_cases _ _ _ _ _ _ _ _ heq with h | ⟨r, h⟩
          · repeat' split
            all_goals exact Or.inl (by simp [h, hce])
          · repeat' split
            all_goals exact Or.inr ⟨r, by simp [h, hce]⟩

theorem log_trace_emitted_le (env : Env) (a : LogTraceArgs) (s : Sys) :
    ((_log_trace env a s).2).emitted.length ≤ s.emitted.length + 1 := by
  rcases log_trace_emitted_cases env a s with h | ⟨r, h⟩
  · rw [h]; omega
  · rw [h]; simp

theorem execute_callback_none (i r : PyVal) (s : Sys) :
    _execute_callback none i r s = (.vnone, s) := rfl

theorem execute_callback_pure (f : PyVal → PyVal → Except PyErr PyVal)
    (i r : PyVal) (s : Sys) :
    _execute_callback (some (liftPureCallback f)) i r s
      = ((match f i r with | .ok v => v | .error _ => .vnone), s) := by
  cases hf : f i r <;> simp [_execute_callback, liftPureCallback, hf]

/-- Every run of a `create_sync_wrapper` wrapper around an effect-free
delegate and an effect-free callback either returns the world untouched
(disabled path) or ends in the world of a single `_log_trace` call on the
entry world. -/
theorem sync_wrapper_pure_sys (b : Bool)
    (cb : Option (PyVal → PyVal → Except PyErr PyVal))
    (ie : List PyVal → PyDict → PyVal) (oe : PyVal → PyVal) (de : PyDict → PyDict)
    (sm st : PyVal) (g : List PyVal → PyDict → Except PyErr PyVal)
    (env : Env) (args : List PyVal) (kwargs : PyDict) (s : Sys) :
    ((create_sync_wrapper
        { is_target_instance_method := b, callback := Option.map liftPureCallback cb,
          input_extractor := ie, output_extractor := oe,
          dynamic_llm_details_extractor := de,
          static_model_name := sm, static_tools := st }
        (liftPure g)).call env args kwargs s).2 = s ∨
    ∃ A, ((create_sync_wrapper
        { is_target_instance_method := b, callback := Option.map liftPureCallback cb,
          input_extractor := ie, output_extractor := oe,
          dynamic_llm_details_extractor := de,
          static_model_name := sm, static_tools := st }
        (liftPure g)).call env args kwargs s).2 = (_log_trace env A s).2 := by
  cases cb with
  | none =>
    by_cases hoff : s.client.logging_off = true
    · left
      simp [create_sync_wrapper, createSyncWrapperCall, hoff, liftPure]
    · simp only [create_sync_wrapper, createSyncWrapperCall, liftPure,
        Option.map, execute_callback_none]
      rw [if_neg hoff]
      repeat' split
      all_goals first | exact Or.inl rfl | exact Or.inr ⟨_, rfl⟩
  | some f =>
    by_cases hoff : s.client.logging_off = true
    · left
      simp [create_sync_wrapper, createSyncWrapperCall, hoff, liftPure]
    · simp only [create_sync_wrapper, createSyncWrapperCall, liftPure,
        Option.map, execute_callback_pure]
      rw [if_neg hoff]
      repeat' split
      all_goals first | exact Or.inl rfl | exact Or.inr ⟨_, rfl⟩

/-- A wrapper installed over an already-wrapped target: the inner wrapper
plays the role of the original method for the outer one, exactly as when
`monitor` runs twice over the same client. -/
def doubleWrapped : PyFunction :=
  create_sync_wrapper fixtureCfg ((create_sync_wrapper fixtureCfg okDelegate).call envOk)

/-- C2 counterexample: one logical call through a target that was wrapped
twice emits two trace records, because no installer consults the
`__ragmetrics_wrapped__` marker before wrapping. -/
theorem c2_counterexample_double_install_two_traces :
    (doubleWrapped.call envOk [] chatKw sTok).2.emitted.length = 2 := rfl

/-- C2 amended: a single installed `create_sync_wrapper` wrapper around an
effect-free delegate and callback emits at most one trace record per
invocation, even when the delegate raises (first conjunct); the
replacement callable produced by `create_sync_wrapper` carries the
`__ragmetrics_wrapped__` marker, so an already-wrapped target is
detectable (second conjunct), though the OpenAI chat installer attaches no
marker to its replacement (third conjunct); and since no installer
consults the marker, installing an interceptor over an already-wrapped
target does result in two emitted trace records for one logical call
(fourth conjunct). -/
theorem c2_at_most_one_trace_and_marker :
    (∀ (b : Bool) (cb : Option (PyVal → PyVal → Except PyErr PyVal))
        (ie : List PyVal → PyDict → PyVal) (oe : PyVal → PyVal)
        (de : PyDict → PyDict) (sm st : PyVal)
        (g : List PyVal → PyDict → Except PyErr PyVal)
        (env : Env) (args : List PyVal) (kwargs : PyDict) (s : Sys),
      ((create_sync_wrapper
          { is_target_instance_method := b, callback := Option.map liftPureCallback cb,
            input_extractor := ie, output_extractor := oe,
            dynamic_llm_details_extractor := de,
            static_model_name := sm, static_tools := st }
          (liftPure g)).call env args kwargs s).2.emitted.length
        ≤ s.emitted.length + 1) ∧
    (∀ (cfg : WrapperCfg) (f : PyCallable),
      dget (create_sync_wrapper cfg f).attrs "__ragmetrics_wrapped__"
        = some (.vbool true)) ∧
    (∀ (cb : Option Callback) (f : PyCallable),
      dget (wrap_openai_chat_completions_create cb f).attrs "__ragmetrics_wrapped__"
        = none) ∧
    (doubleWrapped.call envOk [] chatKw sTok).2.emitted.length = 2 := by
  refine ⟨?_, ?_, ?_, rfl⟩
  · intro b cb ie oe de sm st g env args kwargs s
    rcases sync_wrapper_pure_sys b cb ie oe de sm st g env args kwargs s with h | ⟨A, h⟩
    · rw [h]; omega
    · rw [h]; exact log_trace_emitted_le env A s
  · intro cfg f
    rfl
  · intro cb f
    rfl

theorem ofirst_absorb (a b c : Option PyVal) :
    ofirst (ofirst a (ofirst b c)) c = ofirst a (ofirst b c) := by
  cases a <;> cases b <;> cases c <;> rfl

/-- C3 fixture: a dynamic-details extractor whose additional LLM metadata
layer is the dict b=2, c=2. -/
def c3DetailsExtractor : PyDict → PyDict :=
  fun kw => [("model_name", dgetD kw "model" .vnone),
    ("additional_llm_metadata", .vdict [("b", .vint 2), ("c", .vint 2)])]

/-- C3 fixture wrapper configuration. -/
def c3cfg : WrapperCfg :=
  { is_target_instance_method := false, callback := none,
    input_extractor := fixtureInputExtractor,
    output_extractor := fixtureOutputExtractor,
    dynamic_llm_details_extractor := c3DetailsExtractor,
    static_model_name := .vnone, static_tools := .vnone }

/-- C3 fixture world: logged in, client-level metadata a=1, b=1. -/
def c3Sys : Sys :=
  mkSys (mkClient (some "tok") false (some [("a", .vint 1), ("b", .vint 1)]) "conv0")

/-- C3 fixture call kwargs: per-call metadata c=3, d=3. -/
def c3Kw : PyDict :=
  [("messages", .vlist [userMsg]), ("metadata", .vdict [("c", .vint 3), ("d", .vint 3)])]

/-- C3: the three metadata layers are merged left to right with later
layers overriding earlier ones, independently of iteration order.  First
conjunct: for any uniquely-keyed client metadata `cm`, dynamic metadata
`dm` and per-call metadata `um` (dict-valued layers, so both splats
succeed), whenever `_extract_final_log_parameters` returns parameters
`flp`, the metadata that `_log_trace` attaches (the union of the client
metadata with `flp.final_metadata_for_log`) looks up each key in `um`
first, then `dm`, then `cm` — a pure function of the lookups, so
independent of iteration order.  Second conjunct: running the wrapper
with client metadata a=1,b=1, dynamic metadata b=2,c=2 and call metadata
c=3,d=3 emits exactly one trace whose metadata mapping is
a=1,b=2,c=3,d=3. -/
theorem c3_metadata_precedence :
    (∀ (cm dm um : PyDict) (k : String) (sm st : PyVal) (kw : PyDict)
       (flp : FinalLogParams),
      KeysNodup cm → KeysNodup dm → KeysNodup um →
      _extract_final_log_parameters
          [("additional_llm_metadata", .vdict dm)] sm st (some cm)
          (.vdict um) kw = .ok flp →
      dget (unionMetadata (some cm) (.vdict flp.final_metadata_for_log)) k
        = ofirst (dget um k) (ofirst (dget dm k) (dget cm k))) ∧
    ((create_sync_wrapper c3cfg okDelegate).call envOk [] c3Kw c3Sys).2.emitted.map
        payloadMetadataOf
      = [some (.vdict [("a", .vint 1), ("b", .vint 2), ("c", .vint 3), ("d", .vint 3)])] := by
  constructor
  · intro cm dm um k sm st kw flp hcm hdm hum hok
    have hR := Except.ok.inj hok
    rw [← hR]
    show dget (unionMetadata (some cm) (.vdict (pyMerge3 cm dm um))) k
      = ofirst (dget um k) (ofirst (dget dm k) (dget cm k))
    unfold unionMetadata pyMerge3
    have h0 : KeysNodup ([] : PyDict) := List.nodup_nil
    have h1 : KeysNodup (dupdate [] cm) := keysNodup_dupdate [] cm h0
    have h2 : KeysNodup (dupdate (dupdate [] cm) dm) := keysNodup_dupdate _ dm h1
    have h3 : KeysNodup (dupdate (dupdate (dupdate [] cm) dm) um) :=
      keysNodup_dupdate _ um h2
    rw [dget_dupdate _ _ k h3, dget_dupdate _ _ k hum, dget_dupdate _ _ k hdm,
      dget_dupdate _ _ k hcm]
    have hnil : dget ([] : PyDict) k = none := rfl
    rw [hnil, ofirst_none_right]
    exact ofirst_absorb _ _ _
  · rfl

/-- C3 witness: the precedence law applied at the concrete three layers of
the claim; key `b` resolves to the dynamic layer value 2. -/
theorem c3_metadata_precedence_witness :
    dget (unionMetadata (some [("a", PyVal.vint 1), ("b", PyVal.vint 1)])
      (.vdict (pyMerge3 [("a", PyVal.vint 1), ("b", PyVal.vint 1)]
        [("b", PyVal.vint 2), ("c", PyVal.vint 2)]
        [("c", PyVal.vint 3), ("d", PyVal.vint 3)])))
      "b" = some (PyVal.vint 2) := by
  have h := (c3_metadata_precedence).1
    [("a", PyVal.vint 1), ("b", PyVal.vint 1)]
    [("b", PyVal.vint 2), ("c", PyVal.vint 2)]
    [("c", PyVal.vint 3), ("d", PyVal.vint 3)]
    "b" .vnone .vnone [] _
    (by unfold KeysNodup; decide) (by unfold KeysNodup; decide)
    (by unfold KeysNodup; decide) rfl
  exact h.trans rfl

theorem make_request_pair_client (env : Env) (ep m : String) (b : Option PyVal)
    (p : PyDict) (s : Sys) (e2 : Except PyErr PyVal) (s2 : Sys)
    (h : _make_request env ep m b p s = (e2, s2)) : s2.client = s.client := by
  rcases make_request_pair_cases env ep m b p s e2 s2 h with hc | ⟨r, hc⟩ <;> rw [hc]

/-- After an enabled, logged-in `_log_trace` run, the client conversation
identifier is exactly the one produced by conversation resolution:
nothing after the resolution step changes it. -/
theorem log_trace_client_conv (env : Env) (a : LogTraceArgs) (s : Sys)
    (hoff : s.client.logging_off = false)
    (htok : s.client.access_token.isSome = true) :
    ((_log_trace env a s).2).client.conversation_id
      = (resolveConversation a s).2.client.conversation_id := by
  have hnn : s.client.access_token.isNone = false := by
    cases h : s.client.access_token
    · rw [h] at htok; simp at htok
    · simp [h]
  simp only [_log_trace]
  rw [if_neg (by simp [hoff]), if_neg (by simp [hnn])]
  split
  · rfl
  · split
    · rename_i e s3 heq
      have hc := make_request_pair_client _ _ _ _ _ _ _ _ heq
      simp [hc]
    · rename_i rd s3 heq
      have hc := make_request_pair_client _ _ _ _ _ _ _ _ heq
      repeat' split
      all_goals simp [hc]

/-- A plain `_log_trace` argument fixture: a single user message asking a
question, a plain answer, everything else defaulted. -/
def baseArgs : LogTraceArgs :=
  { input_messages := .vlist [userMsg], response := .vstr "Paris",
    metadata_llm := .vnone, contexts := .vnone, expected := .vnone,
    duration := 0, tools := .vnone, callback_result := .vnone,
    conversation_id := .vnone, force_new_conversation := .vbool false,
    error := none, model_name := .vnone, tool_choice := .vnone, kwargs := [] }

/-- C4 fixture: a forced-new trace over a plain-string input. -/
def c4ForcedArgs : LogTraceArgs :=
  { baseArgs with
    force_new_conversation := PyVal.vbool true,
    input_messages := PyVal.vstr "hello" }

/-- C4 fixture: a trace with an explicit conversation identifier. -/
def c4ExplicitArgs : LogTraceArgs :=
  { baseArgs with conversation_id := PyVal.vstr "mycid" }

/-- C4: conversation resolution.  Conjuncts: (1) `new_conversation`
with no explicit identifier draws the next fresh identifier, advances the
supply, and emits nothing; (2) a truthy `force_new_conversation` always
generates a fresh identifier and replaces the client identifier,
independent of input shape; (3) an explicit conversation identifier is
used verbatim for the trace and the world is untouched; (4) otherwise, an
input the heuristic classifies as new generates a fresh identifier
replacing the client one; (5) an input the heuristic classifies as
continuing reuses the client identifier with the world untouched; (6) the
heuristic: a plain string is new; (7) a single-element list is new
exactly when its sole message is not a continuation; (8) a dict message
is a continuation exactly when its `tool_call_id` or `tool_calls` entry
is truthy or its role is assistant, tool or system; (9) a list of length
other than one is never new; (10) in a traced call (logging on, token
present) the client identifier after `_log_trace` is exactly the resolved
one; (11) concretely, a forced-new traced call stamps the fresh
identifier on the emitted trace and on the client; (12) concretely, an
explicitly identified traced call stamps the explicit identifier on the
trace and leaves the client identifier unchanged. -/
theorem c4_conversation_tracking :
    (∀ (s : Sys), (new_conversation none s).client.conversation_id = uuidGen s.freshCtr ∧
      (new_conversation none s).freshCtr = s.freshCtr + 1 ∧
      (new_conversation none s).emitted = s.emitted) ∧
    (∀ (a : LogTraceArgs) (s : Sys),
      truthy a.force_new_conversation = true →
        resolveConversation a s
          = (.vstr (new_conversation none s).client.conversation_id,
             new_conversation none s)) ∧
    (∀ (a : LogTraceArgs) (s : Sys) (cid : String),
      truthy a.force_new_conversation = false →
      a.conversation_id = .vstr cid →
        resolveConversation a s = (.vstr cid, s)) ∧
    (∀ (a : LogTraceArgs) (s : Sys),
      truthy a.force_new_conversation = false →
      a.conversation_id = .vnone →
      isLikelyNewInteraction a.input_messages = true →
        resolveConversation a s
          = (.vstr (new_conversation none s).client.conversation_id,
             new_conversation none s)) ∧
    (∀ (a : LogTraceArgs) (s : Sys),
      truthy a.force_new_conversation = false →
      a.conversation_id = .vnone →
      isLikelyNewInteraction a.input_messages = false →
        resolveConversation a s = (.vstr s.client.conversation_id, s)) ∧
    (∀ (st : String), isLikelyNewInteraction (.vstr st) = true) ∧
    (∀ (m : PyVal), isLikelyNewInteraction (.vlist [m]) = !(isContinuationMsg m)) ∧
    (∀ (kvs : PyDict), isContinuationMsg (.vdict kvs)
      = (truthy (dgetD kvs "tool_call_id" .vnone) ||
         truthy (dgetD kvs "tool_calls" .vnone) ||
         (match dget kvs "role" with
          | some (.vstr r) => r == "assistant" || r == "tool" || r == "system"
          | _ => false))) ∧
    (∀ (xs : List PyVal), xs.length ≠ 1 → isLikelyNewInteraction (.vlist xs) = false) ∧
    (∀ (env : Env) (a : LogTraceArgs) (s : Sys),
      s.client.logging_off = false → s.client.access_token.isSome = true →
        ((_log_trace env a s).2).client.conversation_id
          = (resolveConversation a s).2.client.conversation_id) ∧
    ((_log_trace envOk c4ForcedArgs sTok).2.client.conversation_id = uuidGen 0 ∧
      ((_log_trace envOk c4ForcedArgs sTok).2.emitted.map payloadConversationOf
        = [some (.vstr (uuidGen 0))])) ∧
    ((_log_trace envOk c4ExplicitArgs sTok).2.client.conversation_id = "conv0" ∧
      ((_log_trace envOk c4ExplicitArgs sTok).2.emitted.map payloadConversationOf
        = [some (.vstr "mycid")])) := by
  refine ⟨?_, ?_, ?_, ?_, ?_, ?_, ?_, ?_, ?_, ?_, ⟨rfl, rfl⟩, ⟨rfl, rfl⟩⟩
  · intro s
    exact ⟨rfl, rfl, rfl⟩
  · intro a s hf
    unfold resolveConversation
    rw [if_pos hf]
  · intro a s cid hf hc
    unfold resolveConversation
    rw [if_neg (by simp [hf]), hc]
  · intro a s hf hc hn
    unfold resolveConversation
    rw [if_neg (by simp [hf]), hc]
    simp only [hn, if_true]
  · intro a s hf hc hn
    unfold resolveConversation
    rw [if_neg (by simp [hf]), hc]
    simp only [hn, Bool.false_eq_true, if_false]
  · intro st
    rfl
  · intro m
    rfl
  · intro kvs
    rfl
  · intro xs hx
    match xs with
    | [] => rfl
    | [m] => exact absurd rfl hx
    | m :: m2 :: rest => rfl
  · intro env a s hoff htok
    exact log_trace_client_conv env a s hoff htok

/-- C4 fixture: a two-message (multi-turn) input, a continuation. -/
def c4ContArgs : LogTraceArgs :=
  { baseArgs with input_messages := PyVal.vlist [userMsg, userMsg] }

/-- C4 witness: each hypothesis-bearing conjunct of the conversation
theorem applied at a concrete input. -/
theorem c4_conversation_tracking_witness :
    (resolveConversation c4ForcedArgs sTok
      = (.vstr (new_conversation none sTok).client.conversation_id,
         new_conversation none sTok)) ∧
    (resolveConversation c4ExplicitArgs sTok = (.vstr "mycid", sTok)) ∧
    (resolveConversation baseArgs sTok
      = (.vstr (new_conversation none sTok).client.conversation_id,
         new_conversation none sTok)) ∧
    (resolveConversation c4ContArgs sTok = (.vstr "conv0", sTok)) ∧
    (isLikelyNewInteraction (.vlist []) = false) ∧
    (((_log_trace envOk baseArgs sTok).2).client.conversation_id
      = (resolveConversation baseArgs sTok).2.client.conversation_id) := by
  refine ⟨?_, ?_, ?_, ?_, ?_, ?_⟩
  · exact (c4_conversation_tracking).2.1 c4ForcedArgs sTok rfl
  · exact (c4_conversation_tracking).2.2.1 c4ExplicitArgs sTok "mycid" rfl rfl
  · exact (c4_conversation_tracking).2.2.2.1 baseArgs sTok rfl rfl rfl
  · exact (c4_conversation_tracking).2.2.2.2.1 c4ContArgs sTok rfl rfl rfl
  · exact (c4_conversation_tracking).2.2.2.2.2.2.2.2.1 [] (by decide)
  · exact (c4_conversation_tracking).2.2.2.2.2.2.2.2.2.1 envOk baseArgs sTok rfl rfl

/-- A delegate that returns the keyword arguments it was handed, making
the forwarded parameter set observable. -/
def observerDelegate : PyCallable := liftPure (fun _ kw => .ok (.vdict kw))

/-- A logged-in world with logging turned off. -/
def sOff : Sys := mkSys (mkClient (some "tok") true none "conv0")

/-- C5 counterexample: with instrumentation disabled, the sync wrapper
forwards the raw kwargs to the original, so the original does receive the
`metadata` key — the claim says it never does. -/
theorem c5_counterexample_disabled_forwards_reserved :
    ((create_sync_wrapper fixtureCfg observerDelegate).call envOk []
      [("metadata", .vdict [("x", .vint 1)])] sOff).1
      = .ok (.vdict [("metadata", .vdict [("x", .vint 1)])]) := rfl

/-- C5 amended: when instrumentation is enabled, the four
instrumentation-only keys are removed before anything is forwarded
(first conjunct), every other key reaches the original with its value
unchanged (second conjunct), and when the metadata splats of parameter
extraction succeed the delegate receives exactly the stripped kwargs and
its value comes back (third conjunct); when a splat fails — the popped
`metadata` was a truthy non-mapping — the delegate has already run on the
stripped kwargs but its value is lost to the `TypeError` (fourth
conjunct); and when instrumentation is disabled the wrapper forwards the
parameter set untouched, four keys included (fifth conjunct). -/
theorem c5_reserved_kwargs_stripping :
    (∀ (kwargs : PyDict) (k : String),
      k = "metadata" ∨ k = "contexts" ∨ k = "expected" ∨ k = "force_new_conversation" →
      dget (_pop_ragmetrics_kwargs kwargs).2 k = none) ∧
    (∀ (kwargs : PyDict) (k : String),
      k ≠ "metadata" → k ≠ "contexts" → k ≠ "expected" → k ≠ "force_new_conversation" →
      dget (_pop_ragmetrics_kwargs kwargs).2 k = dget kwargs k) ∧
    (∀ (cfg : WrapperCfg) (env : Env) (args : List PyVal) (kwargs : PyDict) (s : Sys)
       (flp : FinalLogParams),
      s.client.logging_off = false →
      _extract_final_log_parameters
          (cfg.dynamic_llm_details_extractor (_pop_ragmetrics_kwargs kwargs).2)
          cfg.static_model_name cfg.static_tools s.client.metadata
          (_pop_ragmetrics_kwargs kwargs).1.user_call_metadata
          (_pop_ragmetrics_kwargs kwargs).2 = .ok flp →
      ((create_sync_wrapper cfg observerDelegate).call env args kwargs s).1
        = .ok (.vdict (_pop_ragmetrics_kwargs kwargs).2)) ∧
    (∀ (cfg : WrapperCfg) (env : Env) (args : List PyVal) (kwargs : PyDict) (s : Sys)
       (e : PyErr),
      s.client.logging_off = false →
      _extract_final_log_parameters
          (cfg.dynamic_llm_details_extractor (_pop_ragmetrics_kwargs kwargs).2)
          cfg.static_model_name cfg.static_tools s.client.metadata
          (_pop_ragmetrics_kwargs kwargs).1.user_call_metadata
          (_pop_ragmetrics_kwargs kwargs).2 = .error e →
      ((create_sync_wrapper cfg observerDelegate).call env args kwargs s).1
        = .error e) ∧
    (∀ (cfg : WrapperCfg) (env : Env) (args : List PyVal) (kwargs : PyDict) (s : Sys),
      s.client.logging_off = true →
      ((create_sync_wrapper cfg observerDelegate).call env args kwargs s).1
        = .ok (.vdict kwargs)) := by
  refine ⟨?_, ?_, ?_, ?_, ?_⟩
  · intro kwargs k hk
    rcases hk with h | h | h | h <;> subst h
    · rw [show (_pop_ragmetrics_kwargs kwargs).2
          = derase (derase (derase (derase kwargs "metadata") "contexts") "expected")
            "force_new_conversation" from rfl]
      rw [dget_derase_ne _ _ _ (by decide), dget_derase_ne _ _ _ (by decide),
        dget_derase_ne _ _ _ (by decide)]
      exact dget_derase_self _ _
    · rw [show (_pop_ragmetrics_kwargs kwargs).2
          = derase (derase (derase (derase kwargs "metadata") "contexts") "expected")
            "force_new_conversation" from rfl]
      rw [dget_derase_ne _ _ _ (by decide), dget_derase_ne _ _ _ (by decide)]
      exact dget_derase_self _ _
    · rw [show (_pop_ragmetrics_kwargs kwargs).2
          = derase (derase (derase (derase kwargs "metadata") "contexts") "expected")
            "force_new_conversation" from rfl]
      rw [dget_derase_ne _ _ _ (by decide)]
      exact dget_derase_self _ _
    · exact dget_derase_self _ _
  · intro kwargs k h1 h2 h3 h4
    rw [show (_pop_ragmetrics_kwargs kwargs).2
        = derase (derase (derase (derase kwargs "metadata") "contexts") "expected")
          "force_new_conversation" from rfl]
    rw [dget_derase_ne _ _ _ h4, dget_derase_ne _ _ _ h3, dget_derase_ne _ _ _ h2,
      dget_derase_ne _ _ _ h1]
  · intro cfg env args kwargs s flp hoff hok
    simp only [create_sync_wrapper, createSyncWrapperCall, observerDelegate, liftPure]
    rw [if_neg (by simp [hoff])]
    repeat' split
    all_goals first
      | rfl
      | simp_all
  · intro cfg env args kwargs s e hoff herr
    simp only [create_sync_wrapper, createSyncWrapperCall, observerDelegate, liftPure]
    rw [if_neg (by simp [hoff])]
    repeat' split
    all_goals first
      | rfl
      | simp_all
  · intro cfg env args kwargs s hoff
    simp only [create_sync_wrapper, createSyncWrapperCall, observerDelegate, liftPure]
    rw [if_pos (by simp [hoff])]

/-- C5 witness: the stripping theorem applied at concrete kwargs dicts —
all four reserved keys plus an ordinary one for the key facts, a
dict-valued `metadata` for the clean forwarding path, an integer-valued
`metadata` for the `TypeError` path, and a disabled world for the
untouched-forwarding path. -/
theorem c5_reserved_kwargs_stripping_witness :
    dget (_pop_ragmetrics_kwargs
      [("metadata", PyVal.vint 1), ("contexts", PyVal.vint 2),
       ("expected", PyVal.vint 3), ("force_new_conversation", PyVal.vbool true),
       ("temperature", PyVal.vint 7)]).2 "metadata" = none ∧
    dget (_pop_ragmetrics_kwargs
      [("metadata", PyVal.vint 1), ("contexts", PyVal.vint 2),
       ("expected", PyVal.vint 3), ("force_new_conversation", PyVal.vbool true),
       ("temperature", PyVal.vint 7)]).2 "temperature" = some (PyVal.vint 7) ∧
    ((create_sync_wrapper fixtureCfg observerDelegate).call envOk []
      [("metadata", PyVal.vdict [("x", PyVal.vint 1)]), ("temperature", PyVal.vint 7)]
      sTok).1
      = .ok (.vdict (_pop_ragmetrics_kwargs
          [("metadata", PyVal.vdict [("x", PyVal.vint 1)]),
           ("temperature", PyVal.vint 7)]).2) ∧
    ((create_sync_wrapper fixtureCfg observerDelegate).call envOk []
      [("metadata", PyVal.vint 1), ("temperature", PyVal.vint 7)] sTok).1
      = .error (.typeErr "argument after ** must be a mapping") ∧
    ((create_sync_wrapper fixtureCfg observerDelegate).call envOk []
      [("metadata", PyVal.vint 1), ("temperature", PyVal.vint 7)] sOff).1
      = .ok (.vdict [("metadata", PyVal.vint 1), ("temperature", PyVal.vint 7)]) := by
  refine ⟨?_, ?_, ?_, ?_, ?_⟩
  · exact (c5_reserved_kwargs_stripping).1 _ "metadata" (Or.inl rfl)
  · have h := (c5_reserved_kwargs_stripping).2.1
      [("metadata", PyVal.vint 1), ("contexts", PyVal.vint 2),
       ("expected", PyVal.vint 3), ("force_new_conversation", PyVal.vbool true),
       ("temperature", PyVal.vint 7)]
      "temperature" (by decide) (by decide) (by decide) (by decide)
    rw [h]
    rfl
  · exact (c5_reserved_kwargs_stripping).2.2.1 fixtureCfg envOk []
      [("metadata", PyVal.vdict [("x", PyVal.vint 1)]), ("temperature", PyVal.vint 7)]
      sTok _ rfl rfl
  · exact (c5_reserved_kwargs_stripping).2.2.2.1 fixtureCfg envOk []
      [("metadata", PyVal.vint 1), ("temperature", PyVal.vint 7)] sTok
      (.typeErr "argument after ** must be a mapping") rfl rfl
  · exact (c5_reserved_kwargs_stripping).2.2.2.2 fixtureCfg envOk []
      [("metadata", PyVal.vint 1), ("temperature", PyVal.vint 7)] sOff rfl

/-- A world with no access token and logging on. -/
def sNoTok : Sys := mkSys (mkClient none false none "conv0")

/-- A collector that rejects every request with a 401. -/
def server401 : Request → HttpResp :=
  fun _ => { status := 401, body := none }

/-- Test environment around the 401 collector. -/
def env401 : Env := { server := server401, caller := "caller_fn" }

/-- C6 counterexample: `save` on an unauthenticated client against a
collector answering 404 (the situation the repository test
`test_ragmetrics_object_save_not_logged_in` exercises) raises an API
error, not an authentication error, and it does make a network attempt. -/
theorem c6_counterexample_save_not_auth_error :
    (objectSave envNotFound "mockdata" [("name", .vstr "x")] false sNoTok).1
      = .error (.api "API request failed") ∧
    (∀ m, (objectSave envNotFound "mockdata" [("name", .vstr "x")] false sNoTok).1
      ≠ .error (.auth m)) ∧
    (objectSave envNotFound "mockdata" [("name", .vstr "x")] false sNoTok).2.emitted.length
      = 1 := by
  refine ⟨rfl, ?_, rfl⟩
  intro m hm
  rw [show (objectSave envNotFound "mockdata" [("name", .vstr "x")] false sNoTok).1
    = .error (.api "API request failed") from rfl] at hm
  exact PyErr.noConfusion (Except.error.inj hm)

/-- C6 amended: with no access credential, trace emission returns `none`
silently with the world untouched and no network attempt (first
conjunct); an explicit download raises an authentication error locally,
before any network attempt (second conjunct); an explicit save has no
local credential check — it attempts the request without credentials
(fifth conjunct: the one recorded request is unauthenticated) and raises
an authentication error only when the server answers 401/403 (third
conjunct), an API error otherwise (fourth conjunct). -/
theorem c6_missing_credential_behavior :
    (∀ (env : Env) (a : LogTraceArgs) (s : Sys),
      s.client.access_token = none → _log_trace env a s = (.ok none, s)) ∧
    (∀ (env : Env) (ot : String) (idArg nameArg : Option PyVal) (s : Sys),
      s.client.access_token = none →
        objectDownload env ot idArg nameArg s
          = (.error (.auth "RagMetrics client not authenticated. Please login first."), s)) ∧
    ((objectSave env401 "mockdata" [("name", .vstr "x")] false sNoTok).1
      = .error (.auth "Authentication failed")) ∧
    ((objectSave envNotFound "mockdata" [("name", .vstr "x")] false sNoTok).1
      = .error (.api "API request failed")) ∧
    ((objectSave envNotFound "mockdata" [("name", .vstr "x")] false sNoTok).2.emitted.map
        (fun r => r.authed) = [false]) := by
  refine ⟨?_, ?_, rfl, rfl, rfl⟩
  · intro env a s h
    unfold _log_trace
    by_cases hoff : s.client.logging_off = true
    · rw [if_pos hoff]
    · rw [if_neg hoff, if_pos (by simp [h])]
  · intro env ot idArg nameArg s h
    unfold objectDownload
    rw [if_pos (by simp [h])]

/-- C6 witness: the missing-credential theorem applied at the tokenless
world. -/
theorem c6_missing_credential_behavior_witness :
    _log_trace envOk baseArgs sNoTok = (.ok none, sNoTok) ∧
    objectDownload envOk "mockdata" (some (.vstr "some-id")) none sNoTok
      = (.error (.auth "RagMetrics client not authenticated. Please login first."), sNoTok) := by
  refine ⟨?_, ?_⟩
  · exact (c6_missing_credential_behavior).1 envOk baseArgs sNoTok rfl
  · exact (c6_missing_credential_behavior).2.1 envOk "mockdata"
      (some (.vstr "some-id")) none sNoTok rfl

/-- A named payload field of a request body. -/
def payloadFieldOf (k : String) (r : Request) : Option PyVal :=
  match r.jsonBody with
  | some (.vdict kvs) => dget kvs k
  | _ => none

/-- C7 fixture: a traced call passing `expected` with no callback. -/
def c7Args : LogTraceArgs := { baseArgs with expected := PyVal.vstr "e" }

/-- C7 counterexample: with no callback result at all, the emitted
payload carries the per-call `expected` argument in its canonical
`expected` field — the field is not null, contradicting the claim that
without a callback every canonical field remains null. -/
theorem c7_counterexample_expected_without_callback :
    ((_log_trace envOk c7Args sTok).2.emitted.map (payloadFieldOf "expected"))
      = [some (.vstr "e")] ∧
    ((_log_trace envOk c7Args sTok).2.emitted.map (payloadFieldOf "expected"))
      ≠ [some .vnone] := by
  refine ⟨rfl, ?_⟩
  intro hm
  rw [show ((_log_trace envOk c7Args sTok).2.emitted.map (payloadFieldOf "expected"))
    = [some (.vstr "e")] from rfl] at hm
  simp at hm

theorem dget_cb_step (P cr : PyDict) (key k : String) (hne : k ≠ key) :
    dget (match dget cr key with | some v => dset P key v | none => P) k
      = dget P k := by
  cases h : dget cr key
  · rfl
  · exact dget_dset_ne P key k _ hne

theorem dget_cb_step_self (P cr : PyDict) (key : String) :
    dget (match dget cr key with | some v => dset P key v | none => P) key
      = match dget cr key with
        | some v => some v
        | none => dget P key := by
  cases h : dget cr key
  · simp [h]
  · simp [h, dget_dset_self]

/-- C7 amended: the raw section is always fully populated when the
payload is built (first conjunct); the canonical `input`, `output` and
`scores` fields of the built payload are null, while the canonical
`expected` field starts as the per-call `expected` argument, not null
(second conjunct); applying a callback-result dict overwrites exactly
the canonical keys the dict contains, leaving the rest at their prior
values (third conjunct), and a non-dict callback result changes nothing
(fourth conjunct); concretely, a traced call whose callback supplies
only `output` emits a payload with null `input` and `scores`, the
callback `output`, and the argument `expected` (fifth conjunct). -/
theorem c7_raw_and_canonical_population :
    (∀ (caller rawId : String) (cid : PyVal) (a : LogTraceArgs)
        (cm : Option PyDict) (rp : PyVal),
      dget (logTracePayload caller rawId cid a cm rp) "raw"
        = some (.vdict [("input", a.input_messages), ("output", rp),
            ("id", .vstr rawId), ("duration", .vint a.duration),
            ("caller", .vstr caller),
            ("error", match a.error with
              | some e => .vstr (pyErrStr e)
              | none => .vnone)])) ∧
    (∀ (caller rawId : String) (cid : PyVal) (a : LogTraceArgs)
        (cm : Option PyDict) (rp : PyVal),
      dget (logTracePayload caller rawId cid a cm rp) "input" = some .vnone ∧
      dget (logTracePayload caller rawId cid a cm rp) "output" = some .vnone ∧
      dget (logTracePayload caller rawId cid a cm rp) "scores" = some .vnone ∧
      dget (logTracePayload caller rawId cid a cm rp) "expected" = some a.expected) ∧
    (∀ (P cr : PyDict) (k : String),
      k = "input" ∨ k = "output" ∨ k = "expected" ∨ k = "scores" →
      dget (applyCallbackResult P (.vdict cr)) k
        = match dget cr k with
          | some v => some v
          | none => dget P k) ∧
    (∀ (P : PyDict), applyCallbackResult P .vnone = P) ∧
    (((_log_trace envOk { c7Args with
        callback_result := PyVal.vdict [("output", PyVal.vstr "O")] } sTok).2.emitted.map
      (fun r => (payloadFieldOf "input" r, payloadFieldOf "output" r,
        payloadFieldOf "scores" r, payloadFieldOf "expected" r)))
      = [(some .vnone, some (.vstr "O"), some .vnone, some (.vstr "e"))]) := by
  refine ⟨?_, ?_, ?_, ?_, rfl⟩
  · intro caller rawId cid a cm rp
    rfl
  · intro caller rawId cid a cm rp
    exact ⟨rfl, rfl, rfl, rfl⟩
  · intro P cr k hk
    have hunf : applyCallbackResult P (.vdict cr)
        = (match dget cr "scores" with
           | some v => dset (match dget cr "expected" with
             | some v2 => dset (match dget cr "output" with
               | some v3 => dset (match dget cr "input" with
                 | some v4 => dset P "input" v4
                 | none => P) "output" v3
               | none => (match dget cr "input" with
                 | some v4 => dset P "input" v4
                 | none => P)) "expected" v2
             | none => (match dget cr "output" with
               | some v3 => dset (match dget cr "input" with
                 | some v4 => dset P "input" v4
                 | none => P) "output" v3
               | none => (match dget cr "input" with
                 | some v4 => dset P "input" v4
                 | none => P))) "scores" v
           | none => (match dget cr "expected" with
             | some v2 => dset (match dget cr "output" with
               | some v3 => dset (match dget cr "input" with
                 | some v4 => dset P "input" v4
                 | none => P) "output" v3
               | none => (match dget cr "input" with
                 | some v4 => dset P "input" v4
                 | none => P)) "expected" v2
             | none => (match dget cr "output" with
               | some v3 => dset (match dget cr "input" with
                 | some v4 => dset P "input" v4
                 | none => P) "output" v3
               | none => (match dget cr "input" with
                 | some v4 => dset P "input" v4
                 | none => P)))) := by
      cases h1 : dget cr "input" <;> cases h2 : dget cr "output" <;>
        cases h3 : dget cr "expected" <;> cases h4 : dget cr "scores" <;>
        simp [applyCallbackResult, List.foldl, h1, h2, h3, h4]
    rw [hunf]
    rcases hk with h | h | h | h <;> subst h
    · rw [dget_cb_step _ _ "scores" _ (by decide),
        dget_cb_step _ _ "expected" _ (by decide),
        dget_cb_step _ _ "output" _ (by decide),
        dget_cb_step_self]
    · rw [dget_cb_step _ _ "scores" _ (by decide),
        dget_cb_step _ _ "expected" _ (by decide),
        dget_cb_step_self]
      cases h2 : dget cr "output"
      · simp only [h2]
        exact dget_cb_step _ _ "input" _ (by decide)
      · simp [h2]
    · rw [dget_cb_step _ _ "scores" _ (by decide), dget_cb_step_self]
      cases h3 : dget cr "expected"
      · simp only [h3]
        rw [dget_cb_step _ _ "output" _ (by decide)]
        exact dget_cb_step _ _ "input" _ (by decide)
      · simp [h3]
    · rw [dget_cb_step_self]
      cases h4 : dget cr "scores"
      · simp only [h4]
        rw [dget_cb_step _ _ "expected" _ (by decide),
          dget_cb_step _ _ "output" _ (by decide)]
        exact dget_cb_step _ _ "input" _ (by decide)
      · simp [h4]
  · intro P
    rfl

/-- C7 witness: the callback-overlay law applied at a concrete payload
and callback result. -/
theorem c7_raw_and_canonical_population_witness :
    dget (applyCallbackResult [("input", PyVal.vnone)]
      (.vdict [("input", PyVal.vstr "I")])) "input" = some (PyVal.vstr "I") := by
  have h := (c7_raw_and_canonical_population).2.2.1 [("input", PyVal.vnone)]
    [("input", PyVal.vstr "I")] "input" (Or.inl rfl)
  rw [h]
  rfl

/-- The disabled early return of `_log_trace`. -/
theorem log_trace_off (env : Env) (a : LogTraceArgs) (s : Sys)
    (h : s.client.logging_off = true) : _log_trace env a s = (.ok none, s) := by
  unfold _log_trace
  rw [if_pos h]

/-- A callback performing only user-visible world effects: it appends
fixed events to the scratch log and computes its result purely. -/
def userEventCallback (h : PyVal → PyVal → Except PyErr PyVal)
    (ev : List String) : Callback :=
  fun i r s => (h i r, { s with userEvents := s.userEvents ++ ev })

/-- A callback that records that it ran. -/
def recordingCallback : Callback :=
  userEventCallback (fun _ _ => .ok .vnone) ["callback-ran"]

/-- C8 counterexample: with instrumentation globally disabled, invoking
the installed OpenAI chat wrapper still invokes the user callback (the
scratch event log grows), contradicting the claim that no user callback
is invoked; the return value is unaffected and no network call is made. -/
theorem c8_counterexample_openai_callback_runs_disabled :
    ((wrap_openai_chat_completions_create (some recordingCallback) okDelegate).call
      envOk [] chatKw sOff).2.userEvents = ["callback-ran"] ∧
    ((wrap_openai_chat_completions_create (some recordingCallback) okDelegate).call
      envOk [] chatKw sOff).1 = .ok (.vstr "Paris") ∧
    ((wrap_openai_chat_completions_create (some recordingCallback) okDelegate).call
      envOk [] chatKw sOff).2.emitted = [] := ⟨rfl, rfl, rfl⟩

/-- C8 amended: with instrumentation globally disabled, a
`create_sync_wrapper` wrapper is a true no-op — it behaves exactly as the
bare original call, for every configuration, so no extractor, callback or
network call can influence anything (first conjunct); the OpenAI chat
wrapper performs no disabled check: provided the `metadata` pop-copy
succeeds, it still returns the original value and makes no network call
(trace emission returns none early), but it does invoke the user callback
(second conjunct: the final world is the entry world plus exactly the
callback events); and when the pop-copy fails — a present `metadata`
value without a `copy` method — the `AttributeError` is raised before
the original, the callback or any logging runs, disabled or not (third
conjunct). -/
theorem c8_disabled_instrumentation :
    (∀ (cfg : WrapperCfg) (f : PyCallable) (env : Env) (args : List PyVal)
        (kwargs : PyDict) (s : Sys),
      s.client.logging_off = true →
      (create_sync_wrapper cfg f).call env args kwargs s = f args kwargs s) ∧
    (∀ (h0 : PyVal → PyVal → Except PyErr PyVal) (ev : List String) (v m : PyVal)
        (env : Env) (args : List PyVal) (kwargs : PyDict) (s : Sys),
      s.client.logging_off = true →
      popMetadataCopy kwargs = .ok m →
      (wrap_openai_chat_completions_create (some (userEventCallback h0 ev))
        (liftPure (fun _ _ => .ok v))).call env args kwargs s
        = (.ok v, { s with userEvents := s.userEvents ++ ev })) ∧
    (∀ (cb : Option Callback) (f : PyCallable) (env : Env) (args : List PyVal)
        (kwargs : PyDict) (s : Sys) (e : PyErr),
      popMetadataCopy kwargs = .error e →
      (wrap_openai_chat_completions_create cb f).call env args kwargs s
        = (.error e, s)) := by
  refine ⟨?_, ?_, ?_⟩
  · intro cfg f env args kwargs s hoff
    simp only [create_sync_wrapper, createSyncWrapperCall]
    rw [if_pos hoff]
  · intro h0 ev v m env args kwargs s hoff hm
    simp only [wrap_openai_chat_completions_create, openaiCreateWrapperCall,
      liftPure, userEventCallback, hm]
    cases hr : h0 (dgetD (derase (derase (derase (derase kwargs "contexts")
        "expected") "metadata") "force_new_conversation") "messages" (.vlist [])) v
    · simp only [hr]
      rw [log_trace_off]
      exact hoff
    · simp only [hr]
      rw [log_trace_off]
      exact hoff
  · intro cb f env args kwargs s e hm
    simp only [wrap_openai_chat_completions_create, openaiCreateWrapperCall, hm]

/-- C8 witness: the three disabled-path and pop-copy facts applied at
concrete calls; the third instantiation pops a `metadata` integer, which
has no `copy` method. -/
theorem c8_disabled_instrumentation_witness :
    (create_sync_wrapper fixtureCfg okDelegate).call envOk [] chatKw sOff
      = okDelegate [] chatKw sOff ∧
    (wrap_openai_chat_completions_create
        (some (userEventCallback (fun _ _ => .ok .vnone) ["e1"]))
        (liftPure (fun _ _ => .ok (.vstr "Paris")))).call envOk [] chatKw sOff
      = (.ok (.vstr "Paris"), { sOff with userEvents := sOff.userEvents ++ ["e1"] }) ∧
    (wrap_openai_chat_completions_create
        (some (userEventCallback (fun _ _ => .ok .vnone) ["e1"]))
        (liftPure (fun _ _ => .ok (.vstr "Paris")))).call envOk []
        [("metadata", PyVal.vint 5)] sOff
      = (.error (.attrErr "object has no attribute copy"), sOff) := by
  refine ⟨?_, ?_, ?_⟩
  · exact (c8_disabled_instrumentation).1 fixtureCfg okDelegate envOk [] chatKw sOff rfl
  · exact (c8_disabled_instrumentation).2.1 (fun _ _ => .ok .vnone) ["e1"]
      (.vstr "Paris") (.vdict []) envOk [] chatKw sOff rfl rfl
  · exact (c8_disabled_instrumentation).2.2
      (some (userEventCallback (fun _ _ => .ok .vnone) ["e1"]))
      (liftPure (fun _ _ => .ok (.vstr "Paris"))) envOk []
      [("metadata", PyVal.vint 5)] sOff
      (.attrErr "object has no attribute copy") rfl

/-- C9 fixture: a trace whose contexts contain an exception object — a
value the standard JSON encoder rejects but `serialize_default` would
coerce to a string. -/
def c9Args : LogTraceArgs :=
  { baseArgs with contexts := PyVal.vlist [PyVal.vexc "Exception" "boom"] }

/-- C9: the `serialize_default` fallback chain exists and never raises —
exceptions become their message (first conjunct), a successful
`model_dump` wins (second conjunct), then a successful `dict` (third
conjunct), `UUID`/`datetime`/`struct_time` values become strings
(fourth conjunct), and even a value whose `repr` raises degrades to a
placeholder string (fifth conjunct).  But the chain is never wired into
the emit path: `_make_request` hands the payload to the transport with no
`default` hook, so a trace whose payload contains an exception raises a
`TypeError` out of `_log_trace` with no request issued (sixth and seventh
conjuncts) — even though `serialize_default` would have coerced exactly
that value (first conjunct). -/
theorem c9_serializer_defined_but_unwired :
    (∀ (ty msg : String), serialize_default (.vexc ty msg) = .vstr msg) ∧
    (∀ (d : PyVal) (dm : Option (Option PyVal)) (kind strv : String)
        (rp : Option String),
      serialize_default (.vobj (some (some d)) dm kind strv rp) = d) ∧
    (∀ (dm : PyVal) (kind strv : String) (rp : Option String),
      serialize_default (.vobj (some none) (some (some dm)) kind strv rp) = dm ∧
      serialize_default (.vobj none (some (some dm)) kind strv rp) = dm) ∧
    (∀ (strv : String) (rp : Option String),
      serialize_default (.vobj none none "UUID" strv rp) = .vstr strv ∧
      serialize_default (.vobj none none "datetime" strv rp) = .vstr strv ∧
      serialize_default (.vobj none none "struct_time" strv rp) = .vstr strv) ∧
    (∀ (strv : String),
      serialize_default (.vobj none none "Foo" strv none)
        = .vstr "<unserializable:Foo>") ∧
    ((_log_trace envOk c9Args sTok).1
      = .error (.typeErr "Object is not JSON serializable")) ∧
    ((_log_trace envOk c9Args sTok).2.emitted = []) := by
  refine ⟨?_, ?_, ?_, ?_, ?_, rfl, rfl⟩
  · intro ty msg
    rfl
  · intro d dm kind strv rp
    simp [serialize_default]
  · intro dm kind strv rp
    constructor <;> simp [serialize_default]
  · intro strv rp
    refine ⟨?_, ?_, ?_⟩ <;> simp [serialize_default, serializeChainRest]
  · intro strv
    rfl

/-- A collector that accepts the login request with a well-formed user
payload. -/
def loginServer : Request → HttpResp :=
  fun _ => { status := 200, body := some (.vdict [("user", .vdict [("username", .vstr "alice")])]) }

/-- Test environment around the login collector. -/
def envLogin : Env := { server := loginServer, caller := "caller_fn" }

/-- C10 counterexample: a previously logged-in client calling `login`
with no key and no environment key gets a configuration error but keeps
its access token and its logging stays on — the missing-key path raises
before any state change, contradicting the claim that every login
failure leaves the client with no token and logging off. -/
theorem c10_counterexample_missing_key_keeps_state :
    login envOk none none none none false sTok
      = (.error (.config "Missing API key. Provide key to login or set RAGMETRICS_API_KEY."),
         sTok) ∧
    (login envOk none none none none false sTok).2.client.access_token = some "tok" ∧
    (login envOk none none none none false sTok).2.client.logging_off = false :=
  ⟨rfl, rfl, rfl⟩

/-- C10 amended: a login failure during key validation — rejected
credential (401), API error (other non-2xx), or an unexpected exception
such as a response without `user.username` — leaves the client with no
access token and logging turned off (first three conjuncts), after which
trace emission returns none without a network attempt (fourth conjunct,
via the logging-off early return); a missing key instead raises a
configuration error with the client state untouched (fifth conjunct); a
successful login stores the credential as the access token and generates
a fresh conversation identifier, but does not change the logging-off
flag (sixth conjunct). -/
theorem c10_login_failure_state :
    (∀ (k : String) (s : Sys), k ≠ "" →
      (login env401 (some k) none none none false s).1
          = .error (.auth "Authentication failed") ∧
      (login env401 (some k) none none none false s).2.client.access_token = none ∧
      (login env401 (some k) none none none false s).2.client.logging_off = true) ∧
    (∀ (k : String) (s : Sys), k ≠ "" →
      (login envNotFound (some k) none none none false s).1
          = .error (.api "API request failed") ∧
      (login envNotFound (some k) none none none false s).2.client.access_token = none ∧
      (login envNotFound (some k) none none none false s).2.client.logging_off = true) ∧
    (∀ (k : String) (s : Sys), k ≠ "" →
      (login envOk (some k) none none none false s).1
          = .error (.rme "An unexpected error occurred during API key validation") ∧
      (login envOk (some k) none none none false s).2.client.access_token = none ∧
      (login envOk (some k) none none none false s).2.client.logging_off = true) ∧
    (∀ (env : Env) (a : LogTraceArgs) (s : Sys),
      s.client.logging_off = true → _log_trace env a s = (.ok none, s)) ∧
    (∀ (env : Env) (envBaseUrl : Option String) (s : Sys),
      login env none none none envBaseUrl false s
        = (.error (.config "Missing API key. Provide key to login or set RAGMETRICS_API_KEY."),
           s)) ∧
    (∀ (k : String) (s : Sys), k ≠ "" →
      (login envLogin (some k) none none none false s).1 = .ok true ∧
      (login envLogin (some k) none none none false s).2.client.access_token = some k ∧
      (login envLogin (some k) none none none false s).2.client.conversation_id
        = uuidGen s.freshCtr ∧
      (login envLogin (some k) none none none false s).2.client.logging_off
        = s.client.logging_off) := by
  refine ⟨?_, ?_, ?_, ?_, ?_, ?_⟩
  · intro k s hk
    refine ⟨?_, ?_, ?_⟩ <;>
      simp [login, truthyStrOpt, hk, _make_request, env401, server401, loginClear, jsonEncodable, jsonEncodableKVs, jsonEncodableList]
  · intro k s hk
    refine ⟨?_, ?_, ?_⟩ <;>
      simp [login, truthyStrOpt, hk, _make_request, envNotFound, notFoundServer, loginClear, jsonEncodable, jsonEncodableKVs, jsonEncodableList]
  · intro k s hk
    refine ⟨?_, ?_, ?_⟩ <;>
      simp [login, truthyStrOpt, hk, _make_request, envOk, okServer, loginUnexpected,
        loginClear, dget, List.find?, jsonEncodable, jsonEncodableKVs, jsonEncodableList]
  · intro env a s h
    exact log_trace_off env a s h
  · intro env envBaseUrl s
    rfl
  · intro k s hk
    refine ⟨?_, ?_, ?_, ?_⟩ <;>
      simp [login, truthyStrOpt, hk, _make_request, envLogin, loginServer,
        new_conversation, dget, List.find?, jsonEncodable, jsonEncodableKVs, jsonEncodableList]

/-- C10 witness: the login-state theorem applied with a concrete key and
world for each hypothesis-bearing conjunct. -/
theorem c10_login_failure_state_witness :
    (login env401 (some "k1") none none none false sTok).2.client.logging_off = true ∧
    (login envNotFound (some "k1") none none none false sTok).2.client.access_token = none ∧
    (login envOk (some "k1") none none none false sTok).2.client.logging_off = true ∧
    (login envLogin (some "k1") none none none false sNoTok).2.client.access_token
      = some "k1" := by
  refine ⟨?_, ?_, ?_, ?_⟩
  · exact ((c10_login_failure_state).1 "k1" sTok (by decide)).2.2
  · exact ((c10_login_failure_state).2.1 "k1" sTok (by decide)).2.1
  · exact ((c10_login_failure_state).2.2.1 "k1" sTok (by decide)).2.2
  · exact ((c10_login_failure_state).2.2.2.2.2 "k1" sNoTok (by decide)).2.1

end RagMetrics
